import Mathlib

/-!
Verification development for the agent-dao-factory repository.

Shallow embedding of the proposal state machine (`src/dao/factory.ts`),
the allocation calculator (`DAOFactory.calculateAllocations`,
`DAOFactory.finalizeAllocations`) and the deployment orchestrator
(`src/contracts/deployer.ts`: `ContractDeployer.deployDAO`,
`ContractDeployer.waitForConfirmation`, `ContractDeployer.callContract`).

Conventions of the embedding:
- JavaScript `bigint` / `number` values that are non-negative in every code
  path are modelled as `Nat`; `bigint` floor division on non-negative values
  is `Nat` division.
- The in-memory `Map<number, DAOProposal>` is modelled as an association
  list in insertion order (`mapGet` / `mapSet`).
- Outbound network operations (balance query, nonce fetch, broadcast,
  transaction status poll) are modelled by oracle records supplied to the
  embedded functions; a thrown JavaScript exception is an `Except.error`
  carrying the error message.
- Functions additionally return explicit event traces (network events,
  status writes) so that ordering and absence-of-call properties are
  statable.
-/

-- ============================================================
-- Data model (src/types.ts)
-- ============================================================

inductive DAOStatus where
  | GATHERING
  | THRESHOLD_MET
  | DEPLOYING
  | DEPLOYED
  | FAILED
deriving DecidableEq, Repr

inductive GovernancePhase where
  | FOUNDER_CONTROL
  | TRANSITIONING
  | DECENTRALIZED
deriving DecidableEq, Repr

structure Participant where
  stacksAddress : String
  agentName : String
  mcpVerified : Bool
  allocationBp : Nat
  joinedAt : String
  claimed : Bool
  moltbookUsername : Option String := none
  moltbookReplyId : Option String := none
deriving DecidableEq, Repr

inductive AllocationType where
  | founder
  | participant
  | treasury
  | verifier
deriving DecidableEq, Repr

structure TokenAllocation where
  recipient : String
  amount : Nat
  allocationType : AllocationType
  allocationBp : Nat
deriving DecidableEq, Repr

structure DAOConfig where
  name : String
  symbol : String
  description : String
  totalSupply : Nat
  founderBp : Nat
  participantBp : Nat
  treasuryBp : Nat
  verifierBp : Nat
  governancePhase : GovernancePhase
  votingQuorum : Nat
  votingThreshold : Nat
  proposalBond : Nat
  coreChangeThreshold : Nat
  profitDistributionBp : Nat
  reinvestmentBp : Nat
  minParticipants : Nat
  maxParticipants : Nat
deriving DecidableEq, Repr

/-- `Partial<DAOConfig>`: every field optional, used as the
`customConfig` override in `createProposal`. -/
structure PartialDAOConfig where
  name : Option String := none
  symbol : Option String := none
  description : Option String := none
  totalSupply : Option Nat := none
  founderBp : Option Nat := none
  participantBp : Option Nat := none
  treasuryBp : Option Nat := none
  verifierBp : Option Nat := none
  governancePhase : Option GovernancePhase := none
  votingQuorum : Option Nat := none
  votingThreshold : Option Nat := none
  proposalBond : Option Nat := none
  coreChangeThreshold : Option Nat := none
  profitDistributionBp : Option Nat := none
  reinvestmentBp : Option Nat := none
  minParticipants : Option Nat := none
  maxParticipants : Option Nat := none
deriving DecidableEq, Repr

structure DAOProposal where
  daoId : Nat
  moltbookPostId : String
  config : DAOConfig
  proposer : String
  proposerName : String
  participants : List Participant
  status : DAOStatus
  tokenAddress : Option String := none
  daoAddress : Option String := none
  treasuryAddress : Option String := none
  governanceAddress : Option String := none
  x402Address : Option String := none
  createdAt : String
  thresholdMetAt : Option String := none
  deployedAt : Option String := none
  deploymentTxIds : Option (List String) := none
  deploymentError : Option String := none
deriving DecidableEq, Repr

structure DeploymentAddresses where
  token : Option String := none
  dao : Option String := none
  treasury : Option String := none
  governance : Option String := none
  x402 : Option String := none
deriving DecidableEq, Repr

structure DeploymentResult where
  success : Bool
  txIds : List String
  addresses : DeploymentAddresses
  error : Option String := none
  gasUsed : Option Nat := none
deriving DecidableEq, Repr

-- ============================================================
-- The proposal map (JavaScript Map<number, DAOProposal>)
-- ============================================================

/-- Lookup in insertion-ordered association list (JS `Map.get`). -/
def mapGet (m : List (Nat × DAOProposal)) (k : Nat) : Option DAOProposal :=
  match m with
  | [] => none
  | (k1, v) :: rest => if k1 = k then some v else mapGet rest k

/-- JS `Map.set`: replace in place when the key is present, append otherwise. -/
def mapSet (m : List (Nat × DAOProposal)) (k : Nat) (v : DAOProposal) :
    List (Nat × DAOProposal) :=
  match m with
  | [] => [(k, v)]
  | (k1, v1) :: rest =>
    if k1 = k then (k, v) :: rest else (k1, v1) :: mapSet rest k v

-- ============================================================
-- Character-level string operations (JS code-unit semantics)
-- ============================================================

/-- JS `String.prototype.startsWith`, evaluated on the character data. -/
def strStartsWith (s pre : String) : Bool :=
  pre.data.isPrefixOf s.data

/-- JS `String.prototype.toUpperCase` on the ASCII strings this system
handles. -/
def strToUpper (s : String) : String :=
  String.mk (s.data.map Char.toUpper)

/-- JS `String.prototype.toLowerCase` on the ASCII strings this system
handles. -/
def strToLower (s : String) : String :=
  String.mk (s.data.map Char.toLower)

/-- JS `String.prototype.split` with a one-character separator. -/
def splitOnCharAux (sep : Char) : List Char → List (List Char)
  | [] => [[]]
  | c :: rest =>
    match splitOnCharAux sep rest with
    | [] => if c = sep then [[], []] else [[c]]
    | h :: t => if c = sep then [] :: h :: t else (c :: h) :: t

/-- JS `s.split(sep)` for a one-character separator `sep`. -/
def strSplitOnChar (sep : Char) (s : String) : List String :=
  (splitOnCharAux sep s.data).map String.mk

-- ============================================================
-- Factory state and registry operations (src/dao/factory.ts)
-- ============================================================

/-- Mutable state of a `DAOFactory` instance: the proposal map, the
incrementing counter, and the verifier address passed to the constructor. -/
structure FactoryState where
  proposals : List (Nat × DAOProposal)
  proposalCounter : Nat
  verifierAddress : String
deriving DecidableEq, Repr

namespace DAOFactory

/-- `DAOFactory.isValidStacksAddress`: two-letter network tag SP or ST,
length at least 30, all characters ASCII alphanumeric (the `/^[A-Z0-9]+$/i`
test; the length bound makes the one-or-more requirement vacuous). -/
def isValidStacksAddress (address : String) : Bool :=
  (strStartsWith address "SP" || strStartsWith address "ST") &&
  decide (30 ≤ address.length) &&
  address.data.all Char.isAlphanum

/-- `DAOFactory.createProposal`.  The config is built by object spread:
positional name / upper-cased symbol / description first, then
`DEFAULT_DAO_CONFIG`, then the caller's `customConfig` (later spread wins).
`now` stands for `new Date().toISOString()`. -/
def createProposal (st : FactoryState)
    (moltbookPostId name symbol description proposer proposerName : String)
    (customConfig : PartialDAOConfig) (now : String) :
    DAOProposal × FactoryState :=
  let proposalCounter := st.proposalCounter + 1
  let daoId := proposalCounter
  let config : DAOConfig := {
    name := customConfig.name.getD name
    symbol := customConfig.symbol.getD (strToUpper symbol)
    description := customConfig.description.getD description
    totalSupply := customConfig.totalSupply.getD 100000000000000000
    founderBp := customConfig.founderBp.getD 5000
    participantBp := customConfig.participantBp.getD 3000
    treasuryBp := customConfig.treasuryBp.getD 1500
    verifierBp := customConfig.verifierBp.getD 500
    governancePhase := customConfig.governancePhase.getD .FOUNDER_CONTROL
    votingQuorum := customConfig.votingQuorum.getD 15
    votingThreshold := customConfig.votingThreshold.getD 66
    proposalBond := customConfig.proposalBond.getD 25000000000
    coreChangeThreshold := customConfig.coreChangeThreshold.getD 95
    profitDistributionBp := customConfig.profitDistributionBp.getD 7500
    reinvestmentBp := customConfig.reinvestmentBp.getD 2500
    minParticipants := customConfig.minParticipants.getD 10
    maxParticipants := customConfig.maxParticipants.getD 50 }
  let proposal : DAOProposal := {
    daoId := daoId
    moltbookPostId := moltbookPostId
    config := config
    proposer := proposer
    proposerName := proposerName
    participants := [{
      stacksAddress := proposer
      agentName := proposerName
      mcpVerified := true
      allocationBp := 10000
      joinedAt := now
      claimed := false }]
    status := .GATHERING
    createdAt := now }
  (proposal, { st with
    proposals := mapSet st.proposals daoId proposal
    proposalCounter := proposalCounter })

structure AddResult where
  success : Bool
  message : String
deriving DecidableEq, Repr

/-- `DAOFactory.addParticipant`: not-found, accepting-status, capacity,
duplicate and address-format checks in the source's order, then append and
re-evaluate the GATHERING to THRESHOLD_MET transition. -/
def addParticipant (st : FactoryState) (daoId : Nat)
    (address agentName : String) (mcpVerified : Bool)
    (moltbookReplyId : Option String) (now : String) :
    AddResult × FactoryState :=
  match mapGet st.proposals daoId with
  | none => ({ success := false, message := "Proposal not found" }, st)
  | some proposal =>
    if proposal.status ≠ .GATHERING ∧ proposal.status ≠ .THRESHOLD_MET then
      ({ success := false, message := "Proposal not accepting participants" }, st)
    else if proposal.config.maxParticipants ≤ proposal.participants.length then
      ({ success := false, message := "Max participants reached" }, st)
    else if proposal.participants.any (fun p => p.stacksAddress = address) then
      ({ success := false, message := "Already in whitelist" }, st)
    else if ¬ isValidStacksAddress address then
      ({ success := false, message := "Invalid Stacks address" }, st)
    else
      let participants := proposal.participants ++ [{
        stacksAddress := address
        agentName := agentName
        mcpVerified := mcpVerified
        allocationBp := 0
        joinedAt := now
        claimed := false
        moltbookReplyId := moltbookReplyId }]
      let proposal1 := { proposal with participants := participants }
      let proposal2 :=
        if proposal1.config.minParticipants ≤ proposal1.participants.length ∧
            proposal1.status = .GATHERING then
          { proposal1 with status := .THRESHOLD_MET, thresholdMetAt := some now }
        else proposal1
      ({ success := true
         message := "Added to whitelist (MCP: " ++
           (if mcpVerified then "verified" else "not verified") ++ ")" },
       { st with proposals := mapSet st.proposals daoId proposal2 })

/-- The loop body of `finalizeAllocations`: overwrite the allocation of every
participant whose address differs from the proposer. -/
def finalizeParticipants (proposer : String) (alloc : Nat) :
    List Participant → List Participant
  | [] => []
  | p :: rest =>
    (if p.stacksAddress ≠ proposer then { p with allocationBp := alloc } else p)
      :: finalizeParticipants proposer alloc rest

/-- `DAOFactory.finalizeAllocations`.  `participantCount` is
`participants.length - 1`; the JS test `participantCount <= 0` coincides with
the Nat test `participants.length - 1 = 0` on every reachable length. -/
def finalizeAllocations (st : FactoryState) (daoId : Nat) :
    Bool × FactoryState :=
  match mapGet st.proposals daoId with
  | none => (false, st)
  | some proposal =>
    let participantCount := proposal.participants.length - 1
    if participantCount = 0 then (false, st)
    else
      let allocationPerParticipant := 10000 / participantCount
      let proposal1 := { proposal with
        participants :=
          finalizeParticipants proposal.proposer allocationPerParticipant
            proposal.participants }
      (true, { st with proposals := mapSet st.proposals daoId proposal1 })

/-- The participant loop of `calculateAllocations`: one entry per participant
whose address differs from the proposer and whose allocation is positive. -/
def participantAllocations (proposer : String) (participantPool : Nat) :
    List Participant → List TokenAllocation
  | [] => []
  | p :: rest =>
    if p.stacksAddress ≠ proposer ∧ 0 < p.allocationBp then
      { recipient := p.stacksAddress
        amount := participantPool * p.allocationBp / 10000
        allocationType := .participant
        allocationBp := p.allocationBp }
        :: participantAllocations proposer participantPool rest
    else participantAllocations proposer participantPool rest

/-- `DAOFactory.calculateAllocations`: founder, eligible participants,
treasury, verifier, each amount a floor division of bigint values.  The
treasury recipient is `proposal.treasuryAddress || "treasury"` (JS falsy
check: an absent or empty string falls back). -/
def calculateAllocations (st : FactoryState) (daoId : Nat) :
    List TokenAllocation :=
  match mapGet st.proposals daoId with
  | none => []
  | some proposal =>
    let totalSupply := proposal.config.totalSupply
    let founderAmount := totalSupply * proposal.config.founderBp / 10000
    let participantPool := totalSupply * proposal.config.participantBp / 10000
    let treasuryAmount := totalSupply * proposal.config.treasuryBp / 10000
    let verifierAmount := totalSupply * proposal.config.verifierBp / 10000
    let treasuryRecipient :=
      match proposal.treasuryAddress with
      | some a => if a = "" then "treasury" else a
      | none => "treasury"
    ({ recipient := proposal.proposer
       amount := founderAmount
       allocationType := .founder
       allocationBp := proposal.config.founderBp } :: [])
    ++ participantAllocations proposal.proposer participantPool
         proposal.participants
    ++ [{ recipient := treasuryRecipient
          amount := treasuryAmount
          allocationType := .treasury
          allocationBp := proposal.config.treasuryBp },
        { recipient := st.verifierAddress
          amount := verifierAmount
          allocationType := .verifier
          allocationBp := proposal.config.verifierBp }]

end DAOFactory

-- ============================================================
-- Contract call argument encoding (src/contracts/deployer.ts)
-- ============================================================

/-- Runtime type of a JavaScript value passed to `callContract`.  The
`otherV` constructor stands for every runtime type outside the four the
converter recognises; its field is the `typeof` string. -/
inductive TSValue where
  | bigintV (n : Nat)
  | numberV (n : Nat)
  | stringV (s : String)
  | bytesV (b : List Nat)
  | otherV (typeofName : String)
deriving DecidableEq, Repr

inductive ClarityValue where
  | uintCV (n : Nat)
  | principalCV (s : String)
  | stringAsciiCV (s : String)
  | bufferCV (b : List Nat)
deriving DecidableEq, Repr

namespace ContractDeployer

/-- The duck-typed argument conversion inside `callContract`: bigint or
number becomes a uint, a string starting with SP becomes a principal, any
other string becomes an ASCII string, a Uint8Array becomes a buffer, and
everything else throws. -/
def clarityArg : TSValue → Except String ClarityValue
  | .bigintV n => .ok (.uintCV n)
  | .numberV n => .ok (.uintCV n)
  | .stringV s =>
    if strStartsWith s "SP" then .ok (.principalCV s) else .ok (.stringAsciiCV s)
  | .bytesV b => .ok (.bufferCV b)
  | .otherV t => .error ("Unsupported arg type: " ++ t)

/-- `args.map(...)` with a throwing body: the first unsupported argument
aborts the whole conversion. -/
def clarityArgs : List TSValue → Except String (List ClarityValue)
  | [] => .ok []
  | a :: rest =>
    match clarityArg a with
    | .error e => .error e
    | .ok c =>
      match clarityArgs rest with
      | .error e => .error e
      | .ok cs => .ok (c :: cs)

/-- Observable effects of one `callContract` invocation. -/
inductive CallEvent where
  | nonceQuery
  | txConstructed
  | txBroadcast
deriving DecidableEq, Repr

/-- Remote outcomes feeding one `callContract` invocation: the nonce fetch
(which throws when the HTTP response is not ok) and the broadcast result
(an error field makes the call throw). -/
structure CallContractIO where
  nonce : Except String Nat
  broadcastOutcome : Except String String
deriving Repr

/-- `ContractDeployer.callContract`: fetch a fresh nonce, convert the
arguments, construct the transaction, broadcast it.  Returns the thrown
message or the transaction id, together with the effect trace. -/
def callContract (io : CallContractIO)
    (contractAddress contractName functionName : String)
    (args : List TSValue) : Except String String × List CallEvent :=
  match io.nonce with
  | .error e => (.error e, [.nonceQuery])
  | .ok _nonce =>
    match clarityArgs args with
    | .error e => (.error e, [.nonceQuery])
    | .ok _clarityArgs =>
      match io.broadcastOutcome with
      | .error e => (.error ("Call failed: " ++ e),
          [.nonceQuery, .txConstructed, .txBroadcast])
      | .ok txid => (.ok txid, [.nonceQuery, .txConstructed, .txBroadcast])

-- ============================================================
-- Confirmation polling (ContractDeployer.waitForConfirmation)
-- ============================================================

/-- One response of `GET /extended/v1/tx/{txId}`: either a non-ok HTTP
response, or an ok response carrying `tx_status` and the optional
`tx_result.repr`. -/
inductive PollResponse where
  | httpError
  | okResponse (txStatus : String) (txResultRepr : Option String)
deriving DecidableEq, Repr

/-- A response on which the polling loop keeps retrying: a non-ok HTTP
response, or a status that is neither success nor abort_by_response. -/
def retryable : PollResponse → Bool
  | .httpError => true
  | .okResponse s _ => s ≠ "success" && s ≠ "abort_by_response"

/-- The polling loop of `waitForConfirmation`, indexed by the current
attempt `i`.  The second component counts the polls performed. -/
def waitLoop (poll : Nat → PollResponse) (txId : String)
    (maxAttempts : Nat) (i : Nat) : Except String Unit × Nat :=
  if _h : i < maxAttempts then
    match poll i with
    | .okResponse s r =>
      if s = "success" then (.ok (), i + 1)
      else if s = "abort_by_response" then
        (.error ("Transaction aborted: " ++ r.getD "unknown"), i + 1)
      else waitLoop poll txId maxAttempts (i + 1)
    | .httpError => waitLoop poll txId maxAttempts (i + 1)
  else
    (.error ("Transaction " ++ txId ++ " not confirmed after " ++
      toString maxAttempts ++ " attempts"), i)
termination_by maxAttempts - i

/-- `ContractDeployer.waitForConfirmation (txId, maxAttempts = 60,
intervalMs = 5000)`.  `intervalMs` only drives the sleep between polls. -/
def waitForConfirmation (poll : Nat → PollResponse) (txId : String)
    (maxAttempts : Nat := 60) (_intervalMs : Nat := 5000) :
    Except String Unit × Nat :=
  waitLoop poll txId maxAttempts 0

-- ============================================================
-- Orchestrated deployment (ContractDeployer.deployDAO)
-- ============================================================

/-- Steps of the deployDAO pipeline, in the order they are attempted. -/
inductive DeployStep where
  | deployToken
  | confirmToken
  | deployTreasury
  | confirmTreasury
  | deployGovernance
  | confirmGovernance
deriving DecidableEq, Repr

/-- Remote outcomes of the six steps of `deployDAO`: each `deployContract`
either throws (nonce failure or broadcast error) or returns a transaction
id; each confirmation wait either throws or returns. -/
structure DeployDAOIO where
  tokenDeploy : Except String String
  tokenConfirm : Except String Unit
  treasuryDeploy : Except String String
  treasuryConfirm : Except String Unit
  govDeploy : Except String String
  govConfirm : Except String Unit
deriving Repr

/-- `ContractDeployer.deployDAO`: deploy token, confirm, deploy treasury,
confirm, deploy governance, confirm; the catch-all turns the first thrown
step into a failed `DeploymentResult` that keeps the transaction ids and
addresses recorded so far.  Also returns the list of steps attempted. -/
def deployDAO (senderAddress : String) (io : DeployDAOIO)
    (config : DAOConfig) : DeploymentResult × List DeployStep :=
  match io.tokenDeploy with
  | .error e =>
    ({ success := false, txIds := [], addresses := {}, error := some e },
     [.deployToken])
  | .ok tokenTxId =>
    let tokenAddr := senderAddress ++ "." ++ strToLower config.symbol ++ "-token"
    match io.tokenConfirm with
    | .error e =>
      ({ success := false, txIds := [tokenTxId],
         addresses := { token := some tokenAddr }, error := some e },
       [.deployToken, .confirmToken])
    | .ok _ =>
      match io.treasuryDeploy with
      | .error e =>
        ({ success := false, txIds := [tokenTxId],
           addresses := { token := some tokenAddr }, error := some e },
         [.deployToken, .confirmToken, .deployTreasury])
      | .ok treasuryTxId =>
        let treasuryAddr :=
          senderAddress ++ "." ++ strToLower config.symbol ++ "-treasury"
        match io.treasuryConfirm with
        | .error e =>
          ({ success := false, txIds := [tokenTxId, treasuryTxId],
             addresses := { token := some tokenAddr,
                            treasury := some treasuryAddr },
             error := some e },
           [.deployToken, .confirmToken, .deployTreasury, .confirmTreasury])
        | .ok _ =>
          match io.govDeploy with
          | .error e =>
            ({ success := false, txIds := [tokenTxId, treasuryTxId],
               addresses := { token := some tokenAddr,
                              treasury := some treasuryAddr },
               error := some e },
             [.deployToken, .confirmToken, .deployTreasury, .confirmTreasury,
              .deployGovernance])
          | .ok govTxId =>
            let govAddr :=
              senderAddress ++ "." ++ strToLower config.symbol ++ "-governance"
            match io.govConfirm with
            | .error e =>
              ({ success := false, txIds := [tokenTxId, treasuryTxId, govTxId],
                 addresses := { token := some tokenAddr,
                                treasury := some treasuryAddr,
                                governance := some govAddr },
                 error := some e },
               [.deployToken, .confirmToken, .deployTreasury,
                .confirmTreasury, .deployGovernance, .confirmGovernance])
            | .ok _ =>
              ({ success := true, txIds := [tokenTxId, treasuryTxId, govTxId],
                 addresses := { token := some tokenAddr,
                                treasury := some treasuryAddr,
                                governance := some govAddr } },
               [.deployToken, .confirmToken, .deployTreasury,
                .confirmTreasury, .deployGovernance, .confirmGovernance])

end ContractDeployer

-- ============================================================
-- Token distribution (DAOFactory.distributeTokens)
-- ============================================================

/-- One contract call issued during the distribution phase. -/
structure ContractCall where
  contractAddress : String
  contractName : String
  functionName : String
  args : List TSValue
deriving DecidableEq, Repr

namespace DAOFactory

/-- The participant loop of `distributeTokens`: one distribute-participant
call per participant whose address differs from the proposer and whose
allocation is positive, in list order. -/
def participantCalls (proposer contractAddress contractName : String) :
    List Participant → List ContractCall
  | [] => []
  | p :: rest =>
    if p.stacksAddress ≠ proposer ∧ 0 < p.allocationBp then
      { contractAddress := contractAddress
        contractName := contractName
        functionName := "distribute-participant"
        args := [.stringV p.stacksAddress, .numberV p.allocationBp] }
        :: participantCalls proposer contractAddress contractName rest
    else participantCalls proposer contractAddress contractName rest

/-- The sequence of contract calls `distributeTokens` attempts, in order:
nothing when the deployment carries no token address; otherwise
distribute-founder, the participant calls, distribute-treasury (only when a
treasury address is present), distribute-verifier, finalize-distribution.
The token address is destructured by `split(".")`. -/
def distributeCallList (proposal : DAOProposal) (deployment : DeploymentResult)
    (verifierAddress : String) : List ContractCall :=
  match deployment.addresses.token with
  | none => []
  | some tokenAddress =>
    let parts := strSplitOnChar (Char.ofNat 46) tokenAddress
    let contractAddress := parts.headD ""
    let contractName := (parts.drop 1).headD ""
    [{ contractAddress := contractAddress, contractName := contractName
       functionName := "distribute-founder"
       args := [.stringV proposal.proposer] }]
    ++ participantCalls proposal.proposer contractAddress contractName
         proposal.participants
    ++ (match deployment.addresses.treasury with
        | some treasuryAddress =>
          [{ contractAddress := contractAddress, contractName := contractName
             functionName := "distribute-treasury"
             args := [.stringV treasuryAddress] }]
        | none => [])
    ++ [{ contractAddress := contractAddress, contractName := contractName
          functionName := "distribute-verifier"
          args := [.stringV verifierAddress] },
        { contractAddress := contractAddress, contractName := contractName
          functionName := "finalize-distribution"
          args := [] }]

/-- Execute the distribution calls one by one; `outcomes n` is the result of
the n-th `callContract` invocation (a thrown message aborts the rest).
Returns the calls actually issued and the first thrown message, if any. -/
def runCalls (outcomes : Nat → Except String String) (i : Nat) :
    List ContractCall → List ContractCall × Option String
  | [] => ([], none)
  | c :: rest =>
    match outcomes i with
    | .error e => ([c], some e)
    | .ok _ =>
      let (issued, err) := runCalls outcomes (i + 1) rest
      (c :: issued, err)

-- ============================================================
-- DAOFactory.deploy
-- ============================================================

/-- Result of `ContractDeployer.checkBalance` when it does not throw. -/
structure CheckBalanceResult where
  stx : Nat
  sufficient : Bool
deriving DecidableEq, Repr

/-- Remote outcomes feeding one `DAOFactory.deploy` invocation. -/
structure DeployIO where
  senderAddress : String
  checkBalance : Except String CheckBalanceResult
  deployDAOIO : ContractDeployer.DeployDAOIO
  callOutcomes : Nat → Except String String

/-- Network activity observable during one `DAOFactory.deploy` call. -/
inductive NetEvent where
  | balanceQuery
  | step (s : ContractDeployer.DeployStep)
  | contractCall (functionName : String)
deriving DecidableEq, Repr

/-- The object `deploy` resolves with. -/
structure DeployOutcome where
  success : Bool
  result : Option DeploymentResult
  message : String
deriving DecidableEq, Repr

/-- Full observable behaviour of one `deploy(daoId)` call: the resolved
outcome (or the escaping exception), the factory state afterwards, the
network events performed, and the successive writes to `proposal.status`. -/
structure DeployCallResult where
  outcome : Except String DeployOutcome
  state : FactoryState
  events : List NetEvent
  statusWrites : List DAOStatus
deriving Repr

/-- The tail of `deploy` from the orchestrator hand-off on: run
`deployDAO`, and on failure write FAILED with the error; on success record
the addresses and transaction ids, write DEPLOYED, and run the distribution
phase, whose thrown error is caught, writing FAILED with the message. -/
def deployRest (st2 : FactoryState) (daoId : Nat) (io : DeployIO)
    (now : String) (proposal2 : DAOProposal) : DeployCallResult :=
  let rs := ContractDeployer.deployDAO io.senderAddress io.deployDAOIO
    proposal2.config
  let result := rs.1
  let stepEvents := [NetEvent.balanceQuery] ++ rs.2.map NetEvent.step
  if result.success = false then
    let proposal3 := { proposal2 with
      status := .FAILED, deploymentError := result.error }
    { outcome := .ok { success := false, result := some result,
                       message := "Deployment failed: " ++
                         result.error.getD "undefined" },
      state := { st2 with proposals := mapSet st2.proposals daoId proposal3 },
      events := stepEvents,
      statusWrites := [.DEPLOYING, .FAILED] }
  else
    let proposal3 := { proposal2 with
      status := .DEPLOYED
      tokenAddress := result.addresses.token
      daoAddress := result.addresses.dao
      treasuryAddress := result.addresses.treasury
      governanceAddress := result.addresses.governance
      deployedAt := some now
      deploymentTxIds := some result.txIds }
    let st3 := { st2 with proposals := mapSet st2.proposals daoId proposal3 }
    let calls := distributeCallList proposal3 result st2.verifierAddress
    let run := runCalls io.callOutcomes 0 calls
    let callEvents := stepEvents ++
      run.1.map (fun c => NetEvent.contractCall c.functionName)
    match run.2 with
    | none =>
      { outcome := .ok { success := true, result := some result,
                         message := "DAO deployed successfully" },
        state := st3, events := callEvents,
        statusWrites := [.DEPLOYING, .DEPLOYED] }
    | some e =>
      let proposal4 := { proposal3 with
        status := .FAILED, deploymentError := some e }
      { outcome := .ok { success := false, result := none,
                         message := "Deployment error: " ++ e },
        state := { st3 with
          proposals := mapSet st3.proposals daoId proposal4 },
        events := callEvents,
        statusWrites := [.DEPLOYING, .DEPLOYED, .FAILED] }

/-- `DAOFactory.deploy`: not-found, already-deployed and threshold checks,
then the preflight balance query (outside the try block, so a thrown
balance error escapes the call), then allocation finalization, the
DEPLOYING write, and the `deployRest` tail. -/
def deploy (st : FactoryState) (daoId : Nat) (io : DeployIO) (now : String) :
    DeployCallResult :=
  match mapGet st.proposals daoId with
  | none =>
    { outcome := .ok { success := false, result := none,
                       message := "Proposal not found" },
      state := st, events := [], statusWrites := [] }
  | some proposal =>
    if proposal.status = .DEPLOYED then
      { outcome := .ok { success := false, result := none,
                         message := "Already deployed" },
        state := st, events := [], statusWrites := [] }
    else if proposal.participants.length < proposal.config.minParticipants then
      { outcome := .ok { success := false, result := none,
                         message := "Threshold not met" },
        state := st, events := [], statusWrites := [] }
    else
      match io.checkBalance with
      | .error e =>
        { outcome := .error e, state := st,
          events := [.balanceQuery], statusWrites := [] }
      | .ok bal =>
        if bal.sufficient = false then
          { outcome := .ok { success := false, result := none,
                             message := "Insufficient STX for deployment" },
            state := st, events := [.balanceQuery], statusWrites := [] }
        else
          let st1 := (finalizeAllocations st daoId).2
          let proposal1 := (mapGet st1.proposals daoId).getD proposal
          let proposal2 := { proposal1 with status := .DEPLOYING }
          let st2 := { st1 with
            proposals := mapSet st1.proposals daoId proposal2 }
          deployRest st2 daoId io now proposal2

end DAOFactory

-- ============================================================
-- Derived forms and concrete fixtures
-- ============================================================

namespace DAOFactory

/-- The proposal record as `finalizeAllocations` leaves it: unchanged when
there is no non-proposer participant, otherwise with the equal split
written to every non-proposer entry. -/
def finalizedProposal (p : DAOProposal) : DAOProposal :=
  if p.participants.length - 1 = 0 then p
  else
    let alloc := 10000 / (p.participants.length - 1)
    { p with participants := finalizeParticipants p.proposer alloc p.participants }

end DAOFactory

/-- A syntactically valid mainnet verifier address. -/
def fixVerifier : String := "SP0VERIFIERVERIFIERVERIFIER0000000"

/-- A syntactically valid mainnet proposer address. -/
def fixProposer : String := "SP1PROPOSERPROPOSERPROPOSER0000000"

/-- A syntactically valid mainnet sender (deployer) address. -/
def fixSender : String := "SP9SENDERSENDERSENDERSENDER0000000"

/-- A syntactically valid testnet participant address. -/
def fixParticipant : String := "ST2AGENTAGENTAGENTAGENTAGENT000000"

/-- Orchestrator oracle in which all six steps succeed. -/
def ddioAllOk : ContractDeployer.DeployDAOIO :=
  { tokenDeploy := .ok "txid1", tokenConfirm := .ok ()
    treasuryDeploy := .ok "txid2", treasuryConfirm := .ok ()
    govDeploy := .ok "txid3", govConfirm := .ok () }

/-- Deploy oracle: balance sufficient, everything succeeds. -/
def ioOk : DAOFactory.DeployIO :=
  { senderAddress := fixSender
    checkBalance := .ok { stx := 2000000, sufficient := true }
    deployDAOIO := ddioAllOk
    callOutcomes := fun _ => .ok "txc" }

/-- Deploy oracle: balance sufficient, the token broadcast throws. -/
def ioTokenErr : DAOFactory.DeployIO :=
  { ioOk with deployDAOIO := { ddioAllOk with tokenDeploy := .error "network down" } }

/-- Deploy oracle in which the preflight balance query itself throws. -/
def ioBalanceThrow : DAOFactory.DeployIO :=
  { ioOk with checkBalance := .error "Failed to get balance: Internal Server Error" }

/-- One-participant proposal with `minParticipants = 1`, so `deploy` passes
the threshold check straight out of GATHERING. -/
def c1St1 : FactoryState :=
  (DAOFactory.createProposal ⟨[], 0, fixVerifier⟩ "post7" "Agent DAO" "agt"
    "demo" fixProposer "Alice" { minParticipants := some 1 } "t0").2

/-- The state after a first `deploy` whose token broadcast threw: the
proposal sits at FAILED. -/
def c1St2 : FactoryState := (DAOFactory.deploy c1St1 1 ioTokenErr "t1").state

/-- Proposal at THRESHOLD_MET (minParticipants 2, two participants). -/
def c7St : FactoryState :=
  (DAOFactory.addParticipant
    (DAOFactory.createProposal ⟨[], 0, fixVerifier⟩ "p1" "N" "agt" "d"
      fixProposer "Alice" { minParticipants := some 2 } "t0").2
    1 fixParticipant "Bob" true none "t1").2

/-- Proposal with `minParticipants = 2`, `maxParticipants = 2`. -/
def c8St1 : FactoryState :=
  (DAOFactory.createProposal ⟨[], 0, fixVerifier⟩ "p2" "N" "agt" "d"
    fixProposer "Alice" { minParticipants := some 2, maxParticipants := some 2 }
    "t0").2

/-- First add: succeeds and fills the proposal to capacity. -/
def c8Add1 : DAOFactory.AddResult × FactoryState :=
  DAOFactory.addParticipant c8St1 1 fixParticipant "Bob" true none "t1"

/-- Second add of the same address, now at capacity. -/
def c8Add2 : DAOFactory.AddResult × FactoryState :=
  DAOFactory.addParticipant c8Add1.2 1 fixParticipant "Bob" true none "t2"

/-- Below-capacity variant (maxParticipants 5). -/
def c8wSt1 : FactoryState :=
  (DAOFactory.createProposal ⟨[], 0, fixVerifier⟩ "p2" "N" "agt" "d"
    fixProposer "Alice" { minParticipants := some 2, maxParticipants := some 5 }
    "t0").2

/-- Configuration with the default basis-point split and supply 1000. -/
def w2Cfg : DAOConfig :=
  { name := "N", symbol := "AGT", description := "d", totalSupply := 1000
    founderBp := 5000, participantBp := 3000, treasuryBp := 1500
    verifierBp := 500, governancePhase := .FOUNDER_CONTROL
    votingQuorum := 15, votingThreshold := 66, proposalBond := 25000000000
    coreChangeThreshold := 95, profitDistributionBp := 7500
    reinvestmentBp := 2500, minParticipants := 2, maxParticipants := 50 }

/-- Two-participant proposal over `w2Cfg`. -/
def w2Proposal : DAOProposal :=
  { daoId := 1, moltbookPostId := "m", config := w2Cfg
    proposer := fixProposer, proposerName := "Alice"
    participants :=
      [{ stacksAddress := fixProposer, agentName := "Alice"
         mcpVerified := true, allocationBp := 10000, joinedAt := "t0"
         claimed := false },
       { stacksAddress := fixParticipant, agentName := "Bob"
         mcpVerified := true, allocationBp := 10000, joinedAt := "t1"
         claimed := false }]
    status := .THRESHOLD_MET, createdAt := "t0" }

def w2St : FactoryState := ⟨[(1, w2Proposal)], 1, fixVerifier⟩

/-- One-participant proposal with the default `minParticipants = 10`. -/
def w3St : FactoryState :=
  (DAOFactory.createProposal ⟨[], 0, fixVerifier⟩ "p3" "N" "agt" "d"
    fixProposer "Alice" {} "t0").2

/-- Poll stream: not found nine times, then success. -/
def pollNine : Nat → ContractDeployer.PollResponse :=
  fun j => if j < 9 then .httpError else .okResponse "success" none

/-- Poll stream: forever pending. -/
def pollNever : Nat → ContractDeployer.PollResponse :=
  fun _ => .okResponse "pending" none

/-- Poll stream: not found twice, then a definitive rejection. -/
def pollAbort : Nat → ContractDeployer.PollResponse :=
  fun j => if j < 2 then .httpError else .okResponse "abort_by_response" none

/-- Orchestrator oracle whose token confirmation times out. -/
def ddioTokenTimeout : ContractDeployer.DeployDAOIO :=
  { ddioAllOk with
    tokenConfirm := .error "Transaction txid1 not confirmed after 60 attempts" }

/-- Successful deployment record for the `w2Cfg` symbol. -/
def c6Deployment : DeploymentResult :=
  { success := true, txIds := ["txid1", "txid2", "txid3"]
    addresses := { token := some (fixSender ++ ".agt-token")
                   treasury := some (fixSender ++ ".agt-treasury")
                   governance := some (fixSender ++ ".agt-governance") } }

/-- Proposal with three non-proposer participants, one of which has a zero
allocation. -/
def c6Proposal : DAOProposal :=
  { daoId := 1, moltbookPostId := "m", config := w2Cfg
    proposer := fixProposer, proposerName := "Alice"
    participants :=
      [{ stacksAddress := fixProposer, agentName := "Alice"
         mcpVerified := true, allocationBp := 10000, joinedAt := "t0"
         claimed := false },
       { stacksAddress := "ST3BOBBOBBOBBOBBOBBOBBOBBOBBOB0000", agentName := "Bob"
         mcpVerified := true, allocationBp := 3333, joinedAt := "t1"
         claimed := false },
       { stacksAddress := "ST4CARCARCARCARCARCARCARCARCAR0000", agentName := "Carol"
         mcpVerified := false, allocationBp := 0, joinedAt := "t2"
         claimed := false },
       { stacksAddress := "ST5DAVDAVDAVDAVDAVDAVDAVDAVDAV0000", agentName := "Dave"
         mcpVerified := true, allocationBp := 3333, joinedAt := "t3"
         claimed := false }]
    status := .DEPLOYING, createdAt := "t0" }

/-- Orchestrator oracle whose treasury confirmation times out. -/
def ddioTreasuryTimeout : ContractDeployer.DeployDAOIO :=
  { ddioAllOk with
    treasuryConfirm := .error "Transaction txid2 not confirmed after 60 attempts" }

/-- Orchestrator oracle whose governance broadcast throws. -/
def ddioGovErr : ContractDeployer.DeployDAOIO :=
  { ddioAllOk with
    govDeploy := .error "Deploy failed: ConflictingNonceInMempool" }

/-- Deploy oracle whose second distribution call throws. -/
def ioDistErr : DAOFactory.DeployIO :=
  { ioOk with
    callOutcomes := fun i => if i = 1 then .error "NotEnoughFunds" else .ok "txc" }

-- ============================================================
-- Helper lemmas
-- ============================================================

theorem mapGet_mapSet_self (m : List (Nat × DAOProposal)) (k : Nat) (v : DAOProposal) :
    mapGet (mapSet m k v) k = some v := by
  induction m with
  | nil => simp [mapGet, mapSet]
  | cons hd tl ih =>
    obtain ⟨k1, v1⟩ := hd
    by_cases h : k1 = k <;> simp [mapGet, mapSet, h, ih]

theorem mapGet_mapSet_ne (m : List (Nat × DAOProposal)) (k j : Nat) (v : DAOProposal)
    (h : j ≠ k) : mapGet (mapSet m k v) j = mapGet m j := by
  induction m with
  | nil => simp [mapGet, mapSet, Ne.symm h]
  | cons hd tl ih =>
    obtain ⟨k1, v1⟩ := hd
    by_cases h1 : k1 = k
    · subst h1
      simp [mapGet, mapSet, Ne.symm h]
    · simp [mapGet, mapSet, h1, ih]

theorem mapSet_same (m : List (Nat × DAOProposal)) (k : Nat) (v : DAOProposal)
    (h : mapGet m k = some v) : mapSet m k v = m := by
  induction m with
  | nil => simp [mapGet] at h
  | cons hd tl ih =>
    obtain ⟨k1, v1⟩ := hd
    by_cases h1 : k1 = k
    · subst h1
      simp [mapGet] at h
      simp [mapSet, h]
    · simp [mapGet, h1] at h
      simp [mapSet, h1, ih h]

theorem mapSet_mapSet (m : List (Nat × DAOProposal)) (k : Nat) (v w : DAOProposal) :
    mapSet (mapSet m k v) k w = mapSet m k w := by
  induction m with
  | nil => simp [mapSet]
  | cons hd tl ih =>
    obtain ⟨k1, v1⟩ := hd
    by_cases h : k1 = k <;> simp [mapSet, h, ih]

theorem finalizeParticipants_eq_map (pr : String) (a : Nat) (l : List Participant) :
    DAOFactory.finalizeParticipants pr a l =
      l.map (fun q =>
        if q.stacksAddress ≠ pr then { q with allocationBp := a } else q) := by
  induction l with
  | nil => rfl
  | cons p rest ih => simp [DAOFactory.finalizeParticipants, ih]

theorem finalizeParticipants_idem (pr : String) (a : Nat) (l : List Participant) :
    DAOFactory.finalizeParticipants pr a
      (DAOFactory.finalizeParticipants pr a l) =
      DAOFactory.finalizeParticipants pr a l := by
  induction l with
  | nil => rfl
  | cons p rest ih =>
    by_cases h : p.stacksAddress = pr <;>
      simp [DAOFactory.finalizeParticipants, h, ih]

theorem finalizeParticipants_length (pr : String) (a : Nat) (l : List Participant) :
    (DAOFactory.finalizeParticipants pr a l).length = l.length := by
  rw [finalizeParticipants_eq_map]
  exact List.length_map l _

theorem participantAllocations_eq (pr : String) (pool : Nat) (l : List Participant) :
    DAOFactory.participantAllocations pr pool l =
      (l.filter (fun q => decide (q.stacksAddress ≠ pr ∧ 0 < q.allocationBp))).map
        (fun q => { recipient := q.stacksAddress
                    amount := pool * q.allocationBp / 10000
                    allocationType := .participant
                    allocationBp := q.allocationBp }) := by
  induction l with
  | nil => rfl
  | cons p rest ih =>
    by_cases h : p.stacksAddress ≠ pr ∧ 0 < p.allocationBp <;>
      simp [DAOFactory.participantAllocations, List.filter, h, ih]

theorem participantCalls_eq (pr ca cn : String) (l : List Participant) :
    DAOFactory.participantCalls pr ca cn l =
      (l.filter (fun q => decide (q.stacksAddress ≠ pr ∧ 0 < q.allocationBp))).map
        (fun q => { contractAddress := ca, contractName := cn
                    functionName := "distribute-participant"
                    args := [.stringV q.stacksAddress, .numberV q.allocationBp] }) := by
  induction l with
  | nil => rfl
  | cons p rest ih =>
    by_cases h : p.stacksAddress ≠ pr ∧ 0 < p.allocationBp <;>
      simp [DAOFactory.participantCalls, List.filter, h, ih]

theorem clarityArgs_error_of_mem (args : List TSValue) (t : String)
    (h : TSValue.otherV t ∈ args) :
    ∃ e, ContractDeployer.clarityArgs args = .error e := by
  induction args with
  | nil => cases h
  | cons a rest ih =>
    rcases List.mem_cons.mp h with h1 | h2
    · subst h1
      exact ⟨"Unsupported arg type: " ++ t, rfl⟩
    · obtain ⟨e, he⟩ := ih h2
      cases a with
      | bigintV n => exact ⟨e, by simp [ContractDeployer.clarityArgs, ContractDeployer.clarityArg, he]⟩
      | numberV n => exact ⟨e, by simp [ContractDeployer.clarityArgs, ContractDeployer.clarityArg, he]⟩
      | stringV s =>
        by_cases hs : strStartsWith s "SP" <;>
          exact ⟨e, by simp [ContractDeployer.clarityArgs, ContractDeployer.clarityArg, hs, he]⟩
      | bytesV b => exact ⟨e, by simp [ContractDeployer.clarityArgs, ContractDeployer.clarityArg, he]⟩
      | otherV u => exact ⟨"Unsupported arg type: " ++ u, rfl⟩

theorem finalizedProposal_config (p : DAOProposal) :
    (DAOFactory.finalizedProposal p).config = p.config := by
  unfold DAOFactory.finalizedProposal
  split <;> rfl

theorem finalizedProposal_status (p : DAOProposal) :
    (DAOFactory.finalizedProposal p).status = p.status := by
  unfold DAOFactory.finalizedProposal
  split <;> rfl

theorem finalizeAllocations_state (st : FactoryState) (daoId : Nat)
    (p : DAOProposal) (hm : mapGet st.proposals daoId = some p) :
    (DAOFactory.finalizeAllocations st daoId).2 =
      { st with proposals :=
          mapSet st.proposals daoId (DAOFactory.finalizedProposal p) } := by
  simp only [DAOFactory.finalizeAllocations, DAOFactory.finalizedProposal, hm]
  by_cases h : p.participants.length - 1 = 0
  · simp [h, mapSet_same st.proposals daoId p hm]
  · simp [h]

theorem waitLoop_polls_le (poll : Nat → ContractDeployer.PollResponse)
    (txId : String) (M : Nat) :
    ∀ i, i ≤ M → (ContractDeployer.waitLoop poll txId M i).2 ≤ M := by
  suffices h : ∀ n i, M - i ≤ n → i ≤ M →
      (ContractDeployer.waitLoop poll txId M i).2 ≤ M by
    intro i hi
    exact h M i (by omega) hi
  intro n
  induction n with
  | zero =>
    intro i h1 h2
    rw [ContractDeployer.waitLoop]
    simp [show ¬ i < M by omega]
    omega
  | succ n ih =>
    intro i h1 h2
    rw [ContractDeployer.waitLoop]
    by_cases hi : i < M
    · simp only [hi, dite_true]
      cases hp : poll i with
      | httpError => exact ih (i + 1) (by omega) (by omega)
      | okResponse s r =>
        by_cases hs : s = "success"
        · simp [hs]
          omega
        · by_cases ha : s = "abort_by_response"
          · simp [hs, ha]
            omega
          · simp only [hs, ha, if_false]
            exact ih (i + 1) (by omega) (by omega)
    · simp [hi]
      omega

theorem waitLoop_step (poll : Nat → ContractDeployer.PollResponse)
    (txId : String) (M i : Nat) (hi : i < M)
    (hr : ContractDeployer.retryable (poll i) = true) :
    ContractDeployer.waitLoop poll txId M i =
      ContractDeployer.waitLoop poll txId M (i + 1) := by
  rw [ContractDeployer.waitLoop]
  cases hp : poll i with
  | httpError => simp [hi]
  | okResponse s r =>
    rw [hp] at hr
    simp only [ContractDeployer.retryable, Bool.and_eq_true, decide_eq_true_eq] at hr
    simp [hi, hr.1, hr.2]

theorem waitLoop_skip (poll : Nat → ContractDeployer.PollResponse)
    (txId : String) (M : Nat) :
    ∀ n i k, k = i + n → k ≤ M →
      (∀ j, i ≤ j → j < k → ContractDeployer.retryable (poll j) = true) →
      ContractDeployer.waitLoop poll txId M i =
        ContractDeployer.waitLoop poll txId M k := by
  intro n
  induction n with
  | zero =>
    intro i k hk _ _
    subst hk
    rfl
  | succ n ih =>
    intro i k hk hkM hr
    rw [waitLoop_step poll txId M i (by omega) (hr i le_rfl (by omega))]
    exact ih (i + 1) k (by omega) hkM (fun j hj1 hj2 => hr j (by omega) hj2)

theorem waitLoop_success_at (poll : Nat → ContractDeployer.PollResponse)
    (txId : String) (M k : Nat) (hk : k < M) (r : Option String)
    (hp : poll k = .okResponse "success" r) :
    ContractDeployer.waitLoop poll txId M k = (.ok (), k + 1) := by
  rw [ContractDeployer.waitLoop]
  simp [hk, hp]

theorem waitLoop_abort_at (poll : Nat → ContractDeployer.PollResponse)
    (txId : String) (M k : Nat) (hk : k < M) (r : Option String)
    (hp : poll k = .okResponse "abort_by_response" r) :
    ContractDeployer.waitLoop poll txId M k =
      (.error ("Transaction aborted: " ++ r.getD "unknown"), k + 1) := by
  rw [ContractDeployer.waitLoop]
  simp [hk, hp]

theorem waitLoop_timeout_at (poll : Nat → ContractDeployer.PollResponse)
    (txId : String) (M : Nat) :
    ContractDeployer.waitLoop poll txId M M =
      (.error ("Transaction " ++ txId ++ " not confirmed after " ++
        toString M ++ " attempts"), M) := by
  rw [ContractDeployer.waitLoop]
  simp

theorem deployDAO_success_or_error (sender : String)
    (io : ContractDeployer.DeployDAOIO) (cfg : DAOConfig) :
    (ContractDeployer.deployDAO sender io cfg).1.success = true ∨
    (ContractDeployer.deployDAO sender io cfg).1.error.isSome = true := by
  unfold ContractDeployer.deployDAO
  rcases io.tokenDeploy with e | tx
  · right; rfl
  · rcases io.tokenConfirm with e | u
    · right; rfl
    · rcases io.treasuryDeploy with e | tx2
      · right; rfl
      · rcases io.treasuryConfirm with e | u2
        · right; rfl
        · rcases io.govDeploy with e | tx3
          · right; rfl
          · rcases io.govConfirm with e | u3
            · right; rfl
            · left; rfl

theorem deployRest_status (st2 : FactoryState) (daoId : Nat)
    (io : DAOFactory.DeployIO) (now : String) (q p' : DAOProposal)
    (h : mapGet (DAOFactory.deployRest st2 daoId io now q).state.proposals
      daoId = some p') :
    p'.status = .DEPLOYED ∨ p'.status = .FAILED := by
  unfold DAOFactory.deployRest at h
  simp only at h
  split at h
  · rw [mapGet_mapSet_self] at h
    cases h
    right
    rfl
  · split at h
    · rw [mapGet_mapSet_self] at h
      cases h
      left
      rfl
    · rw [mapSet_mapSet, mapGet_mapSet_self] at h
      cases h
      right
      rfl

theorem deploy_main (st : FactoryState) (daoId : Nat) (io : DAOFactory.DeployIO)
    (now : String) (p : DAOProposal) (bal : DAOFactory.CheckBalanceResult)
    (hm : mapGet st.proposals daoId = some p)
    (hnd : p.status ≠ .DEPLOYED)
    (hth : ¬ p.participants.length < p.config.minParticipants)
    (hcb : io.checkBalance = .ok bal) (hsuf : bal.sufficient = true) :
    DAOFactory.deploy st daoId io now =
      DAOFactory.deployRest
        { st with proposals := (mapSet st.proposals daoId
            { DAOFactory.finalizedProposal p with status := .DEPLOYING }) }
        daoId io now
        { DAOFactory.finalizedProposal p with status := .DEPLOYING } := by
  unfold DAOFactory.deploy
  rw [hm]
  simp only [hnd, if_false, hth, if_false, hcb, hsuf]
  simp only [Bool.true_eq_false, if_false]
  rw [finalizeAllocations_state st daoId p hm]
  simp only [mapGet_mapSet_self, Option.getD_some, mapSet_mapSet]

-- ============================================================
-- Claim theorems
-- ============================================================

/-- C2: for a proposal whose four basis-point weights sum to 10000,
`calculateAllocations` returns the founder, eligible-participant, treasury
and verifier entries whose amounts are the floor divisions
`S * bp / 10000` (participants: a second floor division of the participant
pool), and the four top-level amounts sum to at most the supply, with
equality exactly when no floor division leaves a remainder. -/
theorem claim_C2 (st : FactoryState) (daoId : Nat) (p : DAOProposal)
    (hm : mapGet st.proposals daoId = some p)
    (hsum : p.config.founderBp + p.config.participantBp +
      p.config.treasuryBp + p.config.verifierBp = 10000) :
    DAOFactory.calculateAllocations st daoId =
      [{ recipient := p.proposer
         amount := p.config.totalSupply * p.config.founderBp / 10000
         allocationType := .founder, allocationBp := p.config.founderBp }] ++
      (p.participants.filter
        (fun q => decide (q.stacksAddress ≠ p.proposer ∧ 0 < q.allocationBp))).map
        (fun q => { recipient := q.stacksAddress
                    amount := p.config.totalSupply * p.config.participantBp /
                      10000 * q.allocationBp / 10000
                    allocationType := .participant
                    allocationBp := q.allocationBp }) ++
      [{ recipient := (match p.treasuryAddress with
           | some a => if a = "" then "treasury" else a
           | none => "treasury")
         amount := p.config.totalSupply * p.config.treasuryBp / 10000
         allocationType := .treasury, allocationBp := p.config.treasuryBp },
       { recipient := st.verifierAddress
         amount := p.config.totalSupply * p.config.verifierBp / 10000
         allocationType := .verifier, allocationBp := p.config.verifierBp }] ∧
    (p.config.totalSupply * p.config.founderBp / 10000 +
      p.config.totalSupply * p.config.participantBp / 10000 +
      p.config.totalSupply * p.config.treasuryBp / 10000 +
      p.config.totalSupply * p.config.verifierBp / 10000 ≤
        p.config.totalSupply ∧
    (p.config.totalSupply * p.config.founderBp / 10000 +
      p.config.totalSupply * p.config.participantBp / 10000 +
      p.config.totalSupply * p.config.treasuryBp / 10000 +
      p.config.totalSupply * p.config.verifierBp / 10000 =
        p.config.totalSupply ↔
      p.config.totalSupply * p.config.founderBp % 10000 = 0 ∧
      p.config.totalSupply * p.config.participantBp % 10000 = 0 ∧
      p.config.totalSupply * p.config.treasuryBp % 10000 = 0 ∧
      p.config.totalSupply * p.config.verifierBp % 10000 = 0)) := by
  constructor
  · simp only [DAOFactory.calculateAllocations, hm, participantAllocations_eq]
  · have d1 := Nat.div_add_mod (p.config.totalSupply * p.config.founderBp) 10000
    have d2 := Nat.div_add_mod (p.config.totalSupply * p.config.participantBp) 10000
    have d3 := Nat.div_add_mod (p.config.totalSupply * p.config.treasuryBp) 10000
    have d4 := Nat.div_add_mod (p.config.totalSupply * p.config.verifierBp) 10000
    have m1 : p.config.totalSupply * p.config.founderBp % 10000 < 10000 :=
      Nat.mod_lt _ (by norm_num)
    have m2 : p.config.totalSupply * p.config.participantBp % 10000 < 10000 :=
      Nat.mod_lt _ (by norm_num)
    have m3 : p.config.totalSupply * p.config.treasuryBp % 10000 < 10000 :=
      Nat.mod_lt _ (by norm_num)
    have m4 : p.config.totalSupply * p.config.verifierBp % 10000 < 10000 :=
      Nat.mod_lt _ (by norm_num)
    have hs : p.config.totalSupply * p.config.founderBp +
        p.config.totalSupply * p.config.participantBp +
        p.config.totalSupply * p.config.treasuryBp +
        p.config.totalSupply * p.config.verifierBp =
        p.config.totalSupply * 10000 := by
      rw [← Nat.mul_add, ← Nat.mul_add, ← Nat.mul_add, hsum]
    omega

/-- C2 witness: the default 5000/3000/1500/500 split of a 1000-unit supply
allocates 500/300/150/50 and exhausts the supply exactly. -/
theorem claim_C2_witness :
    (DAOFactory.calculateAllocations w2St 1).map (fun a => a.amount) =
      [500, 300, 150, 50] ∧
    500 + 300 + 150 + 50 ≤ (1000 : Nat) := by
  have h := claim_C2 w2St 1 w2Proposal rfl (by norm_num [w2Proposal, w2Cfg])
  refine ⟨?_, by norm_num⟩
  rw [h.1]
  rfl

/-- C5: `finalizeAllocations` returns false exactly on an unknown id or a
participant count (minus the proposer) of zero; otherwise it returns true,
overwrites every non-proposer allocation with `floor(10000 / (N - 1))`
while leaving proposer entries untouched, the distributed basis points
never exceed 10000, and the call is idempotent. -/
theorem claim_C5 (st : FactoryState) (daoId : Nat) :
    ((DAOFactory.finalizeAllocations st daoId).1 = false ↔
      mapGet st.proposals daoId = none ∨
      ∃ p, mapGet st.proposals daoId = some p ∧ p.participants.length ≤ 1) ∧
    (∀ p, mapGet st.proposals daoId = some p → 2 ≤ p.participants.length →
      DAOFactory.finalizeAllocations st daoId =
        (true, { st with proposals := (mapSet st.proposals daoId { p with participants := p.participants.map (fun q => if q.stacksAddress ≠ p.proposer then { q with allocationBp := 10000 / (p.participants.length - 1) } else q) }) }) ∧
      (p.participants.length - 1) * (10000 / (p.participants.length - 1)) ≤
        10000 ∧
      DAOFactory.finalizeAllocations
          (DAOFactory.finalizeAllocations st daoId).2 daoId =
        DAOFactory.finalizeAllocations st daoId) := by
  constructor
  · rcases hm : mapGet st.proposals daoId with _ | p
    · simp [DAOFactory.finalizeAllocations, hm]
    · by_cases h : p.participants.length - 1 = 0
      · simp [DAOFactory.finalizeAllocations, hm, h]
        omega
      · simp [DAOFactory.finalizeAllocations, hm, h]
        omega
  · intro p hm hlen
    have hne : ¬ p.participants.length - 1 = 0 := by omega
    have heq : DAOFactory.finalizeAllocations st daoId =
        (true, { st with proposals := (mapSet st.proposals daoId { p with participants := DAOFactory.finalizeParticipants p.proposer (10000 / (p.participants.length - 1)) p.participants }) }) := by
      simp only [DAOFactory.finalizeAllocations, hm, hne, if_false]
    refine ⟨?_, ?_, ?_⟩
    · rw [heq, finalizeParticipants_eq_map]
    · simpa [Nat.mul_comm] using
        Nat.div_mul_le_self 10000 (p.participants.length - 1)
    · rw [heq]
      have hm2 : mapGet (mapSet st.proposals daoId { p with participants := DAOFactory.finalizeParticipants p.proposer (10000 / (p.participants.length - 1)) p.participants }) daoId =
          some { p with participants := DAOFactory.finalizeParticipants p.proposer (10000 / (p.participants.length - 1)) p.participants } :=
        mapGet_mapSet_self _ _ _
      simp only [DAOFactory.finalizeAllocations, hm2,
        finalizeParticipants_length, hne, if_false, finalizeParticipants_idem,
        mapSet_mapSet]

/-- C5 witness: on the two-participant fixture, finalization succeeds, the
bound holds, and a second call is a no-op. -/
theorem claim_C5_witness :
    (DAOFactory.finalizeAllocations w2St 1).1 = true ∧
    (1 : Nat) * (10000 / 1) ≤ 10000 ∧
    DAOFactory.finalizeAllocations (DAOFactory.finalizeAllocations w2St 1).2 1 =
      DAOFactory.finalizeAllocations w2St 1 := by
  have h := (claim_C5 w2St 1).2 w2Proposal rfl (by norm_num [w2Proposal])
  exact ⟨by rw [h.1], by norm_num, h.2.2⟩

/-- C10: `finalizeAllocations` never inspects the proposal status: for a
known proposal with at least one non-proposer participant it succeeds and
overwrites every non-proposer allocation whatever the status field holds,
including DEPLOYED and FAILED, so allocations of a deployed proposal remain
mutable through the public API. -/
theorem claim_C10 (st : FactoryState) (daoId : Nat) (p : DAOProposal)
    (s : DAOStatus) (hlen : 2 ≤ p.participants.length) :
    (DAOFactory.finalizeAllocations { st with proposals := (mapSet st.proposals daoId { p with status := s }) } daoId).1 = true ∧
    mapGet (DAOFactory.finalizeAllocations { st with proposals := (mapSet st.proposals daoId { p with status := s }) } daoId).2.proposals daoId =
      some { p with status := s, participants := p.participants.map (fun q => if q.stacksAddress ≠ p.proposer then { q with allocationBp := 10000 / (p.participants.length - 1) } else q) } := by
  have hm : mapGet (mapSet st.proposals daoId { p with status := s }) daoId =
      some { p with status := s } := mapGet_mapSet_self _ _ _
  have hne : ¬ p.participants.length - 1 = 0 := by omega
  constructor
  · simp only [DAOFactory.finalizeAllocations, hm, hne, if_false]
  · simp only [DAOFactory.finalizeAllocations, hm, hne, if_false,
      mapSet_mapSet, mapGet_mapSet_self, finalizeParticipants_eq_map]

/-- C10 witness: finalizing the two-participant fixture frozen at status
DEPLOYED still succeeds and rewrites the non-proposer allocation. -/
theorem claim_C10_witness :
    (DAOFactory.finalizeAllocations { w2St with proposals := (mapSet w2St.proposals 1 { w2Proposal with status := .DEPLOYED }) } 1).1 = true := by
  exact (claim_C10 w2St 1 w2Proposal .DEPLOYED (by norm_num [w2Proposal])).1

/-- C6: with a token address present and a treasury address present (as
after a successful `deployDAO`), the distribution phase issues exactly one
distribute-founder call, one distribute-participant call per non-proposer
participant with positive allocation in list order, then
distribute-treasury, distribute-verifier and finalize-distribution. -/
theorem claim_C6 (p : DAOProposal) (d : DeploymentResult) (v tok tr : String)
    (htok : d.addresses.token = some tok)
    (htr : d.addresses.treasury = some tr) :
    DAOFactory.distributeCallList p d v =
      [{ contractAddress := (strSplitOnChar (Char.ofNat 46) tok).headD ""
         contractName := ((strSplitOnChar (Char.ofNat 46) tok).drop 1).headD ""
         functionName := "distribute-founder"
         args := [.stringV p.proposer] }] ++
      (p.participants.filter
        (fun q => decide (q.stacksAddress ≠ p.proposer ∧ 0 < q.allocationBp))).map
        (fun q => { contractAddress := (strSplitOnChar (Char.ofNat 46) tok).headD ""
                    contractName := ((strSplitOnChar (Char.ofNat 46) tok).drop 1).headD ""
                    functionName := "distribute-participant"
                    args := [.stringV q.stacksAddress, .numberV q.allocationBp] }) ++
      [{ contractAddress := (strSplitOnChar (Char.ofNat 46) tok).headD ""
         contractName := ((strSplitOnChar (Char.ofNat 46) tok).drop 1).headD ""
         functionName := "distribute-treasury"
         args := [.stringV tr] },
       { contractAddress := (strSplitOnChar (Char.ofNat 46) tok).headD ""
         contractName := ((strSplitOnChar (Char.ofNat 46) tok).drop 1).headD ""
         functionName := "distribute-verifier"
         args := [.stringV v] },
       { contractAddress := (strSplitOnChar (Char.ofNat 46) tok).headD ""
         contractName := ((strSplitOnChar (Char.ofNat 46) tok).drop 1).headD ""
         functionName := "finalize-distribution"
         args := [] }] := by
  simp only [DAOFactory.distributeCallList, htok, htr, participantCalls_eq]
  simp [List.append_assoc]

/-- C6 witness: three non-proposer participants, two with positive
allocation, produce exactly two distribute-participant calls, in list
order, between the founder call and the treasury call. -/
theorem claim_C6_witness :
    (DAOFactory.distributeCallList c6Proposal c6Deployment fixVerifier).map
      (fun c => c.functionName) =
      ["distribute-founder", "distribute-participant", "distribute-participant",
       "distribute-treasury", "distribute-verifier", "finalize-distribution"] ∧
    ((DAOFactory.distributeCallList c6Proposal c6Deployment fixVerifier).filter
      (fun c => c.functionName = "distribute-participant")).map
      (fun c => c.args) =
      [[.stringV "ST3BOBBOBBOBBOBBOBBOBBOBBOBBOB0000", .numberV 3333],
       [.stringV "ST5DAVDAVDAVDAVDAVDAVDAVDAVDAV0000", .numberV 3333]] := by
  have h := claim_C6 c6Proposal c6Deployment fixVerifier
    (fixSender ++ ".agt-token") (fixSender ++ ".agt-treasury") rfl rfl
  rw [h]
  constructor <;> rfl

/-- C9: `callContract` argument conversion encodes bigint and number as
uint, a string as a principal exactly when it starts with SP and as an
ASCII string otherwise — so the syntactically valid testnet address used as
a validation placeholder, accepted by `isValidStacksAddress`, is encoded as
an ASCII string — encodes byte arrays as buffers, and any other runtime
type makes `callContract` throw before a transaction is constructed or
broadcast. -/
theorem claim_C9 :
    (∀ n, ContractDeployer.clarityArg (.bigintV n) = .ok (.uintCV n) ∧
          ContractDeployer.clarityArg (.numberV n) = .ok (.uintCV n)) ∧
    (∀ s, ContractDeployer.clarityArg (.stringV s) =
      .ok (if strStartsWith s "SP" then .principalCV s else .stringAsciiCV s)) ∧
    (DAOFactory.isValidStacksAddress
        "ST1PQHQKV0RJXZFY1DGX8MNSNYVE3VGZJSRTPGZGM" = true ∧
      ContractDeployer.clarityArg
          (.stringV "ST1PQHQKV0RJXZFY1DGX8MNSNYVE3VGZJSRTPGZGM") =
        .ok (.stringAsciiCV "ST1PQHQKV0RJXZFY1DGX8MNSNYVE3VGZJSRTPGZGM")) ∧
    (∀ b, ContractDeployer.clarityArg (.bytesV b) = .ok (.bufferCV b)) ∧
    (∀ io ca cn fn args t, TSValue.otherV t ∈ args →
      (∃ e, (ContractDeployer.callContract io ca cn fn args).1 = .error e) ∧
      ContractDeployer.CallEvent.txConstructed ∉
        (ContractDeployer.callContract io ca cn fn args).2 ∧
      ContractDeployer.CallEvent.txBroadcast ∉
        (ContractDeployer.callContract io ca cn fn args).2) := by
  refine ⟨fun n => ⟨rfl, rfl⟩, ?_, ⟨by decide, rfl⟩, fun b => rfl, ?_⟩
  · intro s
    by_cases hs : strStartsWith s "SP" <;>
      simp [ContractDeployer.clarityArg, hs]
  · intro io ca cn fn args t hmem
    obtain ⟨e, he⟩ := clarityArgs_error_of_mem args t hmem
    unfold ContractDeployer.callContract
    rcases io.nonce with e1 | n1
    · exact ⟨⟨e1, rfl⟩, by simp, by simp⟩
    · rw [he]
      exact ⟨⟨e, rfl⟩, by simp, by simp⟩

/-- C9 witness: a boolean-typed argument (runtime type name boolean) in the
argument list makes the call fail without constructing or broadcasting a
transaction. -/
theorem claim_C9_witness :
    (∃ e, (ContractDeployer.callContract
      { nonce := .ok 7, broadcastOutcome := .ok "txid9" }
      fixSender "agt-token" "distribute-founder"
      [.stringV fixProposer, .otherV "boolean"]).1 = .error e) ∧
    ContractDeployer.CallEvent.txBroadcast ∉
      (ContractDeployer.callContract
        { nonce := .ok 7, broadcastOutcome := .ok "txid9" }
        fixSender "agt-token" "distribute-founder"
        [.stringV fixProposer, .otherV "boolean"]).2 := by
  have h := claim_C9.2.2.2.2
    { nonce := .ok 7, broadcastOutcome := .ok "txid9" }
    fixSender "agt-token" "distribute-founder"
    [.stringV fixProposer, .otherV "boolean"] "boolean" (by simp)
  exact ⟨h.1, h.2.2⟩

/-- C4: confirmation waiting polls at most `maxAttempts` times; a
definitive abort_by_response status fails immediately with no further
polls; retryable responses (HTTP miss, still pending) are polled past; an
exhausted budget yields the fatal timeout error; and every failing
deployment or confirmation step inside `deployDAO` — token, treasury or
governance, broadcast or confirmation — aborts the pipeline with no
further contract deployed, returning success false, the error message,
and exactly the transaction ids and addresses recorded before the
failure. -/
theorem claim_C4 :
    (∀ (poll : Nat → ContractDeployer.PollResponse) txId M ims,
      (ContractDeployer.waitForConfirmation poll txId M ims).2 ≤ M) ∧
    (∀ (poll : Nat → ContractDeployer.PollResponse) txId M ims k r,
      k < M → (∀ j, j < k → ContractDeployer.retryable (poll j) = true) →
      poll k = .okResponse "abort_by_response" r →
      ContractDeployer.waitForConfirmation poll txId M ims =
        (.error ("Transaction aborted: " ++ r.getD "unknown"), k + 1)) ∧
    (∀ (poll : Nat → ContractDeployer.PollResponse) txId M ims k r,
      k < M → (∀ j, j < k → ContractDeployer.retryable (poll j) = true) →
      poll k = .okResponse "success" r →
      ContractDeployer.waitForConfirmation poll txId M ims = (.ok (), k + 1)) ∧
    (∀ (poll : Nat → ContractDeployer.PollResponse) txId M ims,
      (∀ j, j < M → ContractDeployer.retryable (poll j) = true) →
      ContractDeployer.waitForConfirmation poll txId M ims =
        (.error ("Transaction " ++ txId ++ " not confirmed after " ++
          toString M ++ " attempts"), M)) ∧
    (∀ sender (io : ContractDeployer.DeployDAOIO) cfg tx e,
      io.tokenDeploy = .ok tx → io.tokenConfirm = .error e →
      ContractDeployer.deployDAO sender io cfg =
        ({ success := false, txIds := [tx],
           addresses := { token := some (sender ++ "." ++ strToLower cfg.symbol ++ "-token") },
           error := some e },
         [.deployToken, .confirmToken])) ∧
    (∀ sender (io : ContractDeployer.DeployDAOIO) cfg e,
      io.tokenDeploy = .error e →
      ContractDeployer.deployDAO sender io cfg =
        ({ success := false, txIds := [], addresses := {}, error := some e },
         [.deployToken])) ∧
    (∀ sender (io : ContractDeployer.DeployDAOIO) cfg tx e,
      io.tokenDeploy = .ok tx → io.tokenConfirm = .ok () →
      io.treasuryDeploy = .error e →
      ContractDeployer.deployDAO sender io cfg =
        ({ success := false, txIds := [tx],
           addresses := { token := some (sender ++ "." ++ strToLower cfg.symbol ++ "-token") },
           error := some e },
         [.deployToken, .confirmToken, .deployTreasury])) ∧
    (∀ sender (io : ContractDeployer.DeployDAOIO) cfg tx tx2 e,
      io.tokenDeploy = .ok tx → io.tokenConfirm = .ok () →
      io.treasuryDeploy = .ok tx2 → io.treasuryConfirm = .error e →
      ContractDeployer.deployDAO sender io cfg =
        ({ success := false, txIds := [tx, tx2],
           addresses := { token := some (sender ++ "." ++ strToLower cfg.symbol ++ "-token"),
                          treasury := some (sender ++ "." ++ strToLower cfg.symbol ++ "-treasury") },
           error := some e },
         [.deployToken, .confirmToken, .deployTreasury, .confirmTreasury])) ∧
    (∀ sender (io : ContractDeployer.DeployDAOIO) cfg tx tx2 e,
      io.tokenDeploy = .ok tx → io.tokenConfirm = .ok () →
      io.treasuryDeploy = .ok tx2 → io.treasuryConfirm = .ok () →
      io.govDeploy = .error e →
      ContractDeployer.deployDAO sender io cfg =
        ({ success := false, txIds := [tx, tx2],
           addresses := { token := some (sender ++ "." ++ strToLower cfg.symbol ++ "-token"),
                          treasury := some (sender ++ "." ++ strToLower cfg.symbol ++ "-treasury") },
           error := some e },
         [.deployToken, .confirmToken, .deployTreasury, .confirmTreasury,
          .deployGovernance])) ∧
    (∀ sender (io : ContractDeployer.DeployDAOIO) cfg tx tx2 tx3 e,
      io.tokenDeploy = .ok tx → io.tokenConfirm = .ok () →
      io.treasuryDeploy = .ok tx2 → io.treasuryConfirm = .ok () →
      io.govDeploy = .ok tx3 → io.govConfirm = .error e →
      ContractDeployer.deployDAO sender io cfg =
        ({ success := false, txIds := [tx, tx2, tx3],
           addresses := { token := some (sender ++ "." ++ strToLower cfg.symbol ++ "-token"),
                          treasury := some (sender ++ "." ++ strToLower cfg.symbol ++ "-treasury"),
                          governance := some (sender ++ "." ++ strToLower cfg.symbol ++ "-governance") },
           error := some e },
         [.deployToken, .confirmToken, .deployTreasury, .confirmTreasury,
          .deployGovernance, .confirmGovernance])) := by
  refine ⟨?_, ?_, ?_, ?_, ?_, ?_, ?_, ?_, ?_, ?_⟩
  · intro poll txId M ims
    exact waitLoop_polls_le poll txId M 0 (Nat.zero_le M)
  · intro poll txId M ims k r hk hr hp
    unfold ContractDeployer.waitForConfirmation
    rw [waitLoop_skip poll txId M k 0 k (by omega) (by omega)
      (fun j _ hj => hr j hj)]
    exact waitLoop_abort_at poll txId M k hk r hp
  · intro poll txId M ims k r hk hr hp
    unfold ContractDeployer.waitForConfirmation
    rw [waitLoop_skip poll txId M k 0 k (by omega) (by omega)
      (fun j _ hj => hr j hj)]
    exact waitLoop_success_at poll txId M k hk r hp
  · intro poll txId M ims hr
    unfold ContractDeployer.waitForConfirmation
    rw [waitLoop_skip poll txId M M 0 M (by omega) (by omega)
      (fun j _ hj => hr j hj)]
    exact waitLoop_timeout_at poll txId M
  · intro sender io cfg tx e htd htc
    unfold ContractDeployer.deployDAO
    rw [htd, htc]
  · intro sender io cfg e htd
    unfold ContractDeployer.deployDAO
    rw [htd]
  · intro sender io cfg tx e htd htc h2
    unfold ContractDeployer.deployDAO
    rw [htd, htc, h2]
  · intro sender io cfg tx tx2 e htd htc h2 h3
    unfold ContractDeployer.deployDAO
    rw [htd, htc, h2, h3]
  · intro sender io cfg tx tx2 e htd htc h2 h3 h4
    unfold ContractDeployer.deployDAO
    rw [htd, htc, h2, h3, h4]
  · intro sender io cfg tx tx2 tx3 e htd htc h2 h3 h4 h5
    unfold ContractDeployer.deployDAO
    rw [htd, htc, h2, h3, h4, h5]

/-- C4 witness: nine HTTP misses then success confirms on the tenth poll;
ten retryable polls exhaust a budget of ten with the timeout error; an
abort_by_response on the third poll fails immediately after three polls; a
token-confirmation failure in `deployDAO` yields a failed result carrying
only the token transaction id and address; a treasury-confirmation timeout
carries the two transaction ids and two addresses recorded before it and
attempts no governance deployment; and a failing governance broadcast
carries the same partial progress with no governance confirmation. -/
theorem claim_C4_witness :
    ContractDeployer.waitForConfirmation pollNine "tx1" 10 5000 =
      (.ok (), 10) ∧
    ContractDeployer.waitForConfirmation pollNever "tx2" 10 5000 =
      (.error "Transaction tx2 not confirmed after 10 attempts", 10) ∧
    ContractDeployer.waitForConfirmation pollAbort "tx3" 10 5000 =
      (.error "Transaction aborted: unknown", 3) ∧
    ContractDeployer.deployDAO fixSender ddioTokenTimeout w2Cfg =
      ({ success := false, txIds := ["txid1"],
         addresses := { token := some (fixSender ++ "." ++ strToLower w2Cfg.symbol ++ "-token") },
         error := some "Transaction txid1 not confirmed after 60 attempts" },
       [.deployToken, .confirmToken]) ∧
    ContractDeployer.deployDAO fixSender ddioTreasuryTimeout w2Cfg =
      ({ success := false, txIds := ["txid1", "txid2"],
         addresses := { token := some (fixSender ++ "." ++ strToLower w2Cfg.symbol ++ "-token"),
                        treasury := some (fixSender ++ "." ++ strToLower w2Cfg.symbol ++ "-treasury") },
         error := some "Transaction txid2 not confirmed after 60 attempts" },
       [.deployToken, .confirmToken, .deployTreasury, .confirmTreasury]) ∧
    ContractDeployer.deployDAO fixSender ddioGovErr w2Cfg =
      ({ success := false, txIds := ["txid1", "txid2"],
         addresses := { token := some (fixSender ++ "." ++ strToLower w2Cfg.symbol ++ "-token"),
                        treasury := some (fixSender ++ "." ++ strToLower w2Cfg.symbol ++ "-treasury") },
         error := some "Deploy failed: ConflictingNonceInMempool" },
       [.deployToken, .confirmToken, .deployTreasury, .confirmTreasury,
        .deployGovernance]) := by
  refine ⟨?_, ?_, ?_, ?_, ?_, ?_⟩
  · exact claim_C4.2.2.1 pollNine "tx1" 10 5000 9 none (by norm_num)
      (by decide) (by decide)
  · exact claim_C4.2.2.2.1 pollNever "tx2" 10 5000 (by decide)
  · exact claim_C4.2.1 pollAbort "tx3" 10 5000 2 none (by norm_num)
      (by decide) (by decide)
  · exact claim_C4.2.2.2.2.1 fixSender ddioTokenTimeout w2Cfg "txid1"
      "Transaction txid1 not confirmed after 60 attempts" rfl rfl
  · exact claim_C4.2.2.2.2.2.2.2.1 fixSender ddioTreasuryTimeout w2Cfg
      "txid1" "txid2" "Transaction txid2 not confirmed after 60 attempts"
      rfl rfl rfl rfl
  · exact claim_C4.2.2.2.2.2.2.2.2.1 fixSender ddioGovErr w2Cfg
      "txid1" "txid2" "Deploy failed: ConflictingNonceInMempool"
      rfl rfl rfl rfl rfl

/-- C3: `deploy` fails with not-found, already-deployed, threshold and
insufficient-funds messages, checked in that order; on the threshold
failure no network event of any kind is emitted and the factory state is
unchanged; the balance query fires only after the threshold check
passes. -/
theorem claim_C3 (st : FactoryState) (daoId : Nat) (io : DAOFactory.DeployIO)
    (now : String) :
    (mapGet st.proposals daoId = none →
      DAOFactory.deploy st daoId io now =
        { outcome := .ok { success := false, result := none, message := "Proposal not found" },
          state := st, events := [], statusWrites := [] }) ∧
    (∀ p, mapGet st.proposals daoId = some p → p.status = .DEPLOYED →
      DAOFactory.deploy st daoId io now =
        { outcome := .ok { success := false, result := none, message := "Already deployed" },
          state := st, events := [], statusWrites := [] }) ∧
    (∀ p, mapGet st.proposals daoId = some p → p.status ≠ .DEPLOYED →
      p.participants.length < p.config.minParticipants →
      DAOFactory.deploy st daoId io now =
        { outcome := .ok { success := false, result := none, message := "Threshold not met" },
          state := st, events := [], statusWrites := [] }) ∧
    (∀ p bal, mapGet st.proposals daoId = some p → p.status ≠ .DEPLOYED →
      ¬ p.participants.length < p.config.minParticipants →
      io.checkBalance = .ok bal → bal.sufficient = false →
      DAOFactory.deploy st daoId io now =
        { outcome := .ok { success := false, result := none, message := "Insufficient STX for deployment" },
          state := st, events := [.balanceQuery], statusWrites := [] }) := by
  refine ⟨?_, ?_, ?_, ?_⟩
  · intro hm
    simp only [DAOFactory.deploy, hm]
  · intro p hm hd
    simp only [DAOFactory.deploy, hm, hd, if_true]
  · intro p hm hd hth
    simp only [DAOFactory.deploy, hm, hd, if_false, hth, if_true]
  · intro p bal hm hd hth hcb hsuf
    simp only [DAOFactory.deploy, hm, hd, if_false, hth, hcb, hsuf, if_true]

/-- C3 witness: deploy on a fresh proposal with only the proposer and the
default minimum of ten participants fails with the threshold message,
leaves the state unchanged, and emits no network event. -/
theorem claim_C3_witness :
    DAOFactory.deploy w3St 1 ioOk "t9" =
      { outcome := .ok { success := false, result := none, message := "Threshold not met" },
        state := w3St, events := [], statusWrites := [] } := by
  exact (claim_C3 w3St 1 ioOk "t9").2.2.1
    ((DAOFactory.createProposal ⟨[], 0, fixVerifier⟩ "p3" "N" "agt" "d"
      fixProposer "Alice" {} "t0").1) rfl (by decide) (by decide)

/-- C8 counterexample: with maxParticipants 2, a successful add fills the
proposal to capacity while it is still in an accepting status, and
re-adding the same address fails with the capacity message, not the
duplicate message, because the capacity check runs before the duplicate
check. -/
theorem claim_C8_counterexample :
    c8Add1.1.success = true ∧
    (mapGet c8Add1.2.proposals 1).map (fun p => p.status) =
      some .THRESHOLD_MET ∧
    c8Add2.1 = { success := false, message := "Max participants reached" } ∧
    ¬ c8Add2.1.message = "Already in whitelist" ∧
    c8Add2.2 = c8Add1.2 := by
  exact ⟨rfl, rfl, rfl, by decide, rfl⟩

/-- C8 amended: after a successful `addParticipant` for an address, a
second call with the same address always fails and leaves the state
exactly as after the first call; the failure is the duplicate message when
the participant list is still below capacity, and the capacity message
(checked first) when the list is full. -/
theorem claim_C8_amended (st st1 : FactoryState) (daoId : Nat)
    (address n1 : String) (v1 : Bool) (r1 : Option String) (t1 : String)
    (res1 : DAOFactory.AddResult)
    (hcall : DAOFactory.addParticipant st daoId address n1 v1 r1 t1 = (res1, st1))
    (hsucc : res1.success = true)
    (n2 : String) (v2 : Bool) (r2 : Option String) (t2 : String) :
    (DAOFactory.addParticipant st1 daoId address n2 v2 r2 t2).1.success = false ∧
    (DAOFactory.addParticipant st1 daoId address n2 v2 r2 t2).2 = st1 ∧
    (∀ p1, mapGet st1.proposals daoId = some p1 →
      (DAOFactory.addParticipant st1 daoId address n2 v2 r2 t2).1.message =
        if p1.config.maxParticipants ≤ p1.participants.length then
          "Max participants reached"
        else "Already in whitelist") := by
  rcases hm : mapGet st.proposals daoId with _ | proposal
  · simp only [DAOFactory.addParticipant, hm] at hcall
    injection hcall with h1 h2
    subst h1
    simp at hsucc
  · simp only [DAOFactory.addParticipant, hm] at hcall
    split at hcall
    · injection hcall with h1 h2
      subst h1
      simp at hsucc
    · split at hcall
      · injection hcall with h1 h2
        subst h1
        simp at hsucc
      · split at hcall
        · injection hcall with h1 h2
          subst h1
          simp at hsucc
        · split at hcall
          · injection hcall with h1 h2
            subst h1
            simp at hsucc
          · injection hcall with h1 h2
            subst h2
            rename_i hstat hcap hdup hval
            split
            · simp only [DAOFactory.addParticipant, mapGet_mapSet_self]
              simp [hstat, List.any_append]
              by_cases hcap2 : proposal.config.maxParticipants ≤ proposal.participants.length + 1
              · simp [hcap2]
              · simp [hcap2]
            · simp only [DAOFactory.addParticipant, mapGet_mapSet_self]
              simp [hstat, List.any_append]
              by_cases hcap2 : proposal.config.maxParticipants ≤ proposal.participants.length + 1
              · simp [hcap2]
              · simp [hcap2]

/-- C8 amended witness: below capacity (maxParticipants 5), re-adding the
same address fails with the duplicate message and leaves the state of the
first call unchanged. -/
theorem claim_C8_amended_witness :
    (DAOFactory.addParticipant
      (DAOFactory.addParticipant c8wSt1 1 fixParticipant "Bob" true none "t1").2
      1 fixParticipant "Eve" false none "t2").1 =
      { success := false, message := "Already in whitelist" } ∧
    (DAOFactory.addParticipant
      (DAOFactory.addParticipant c8wSt1 1 fixParticipant "Bob" true none "t1").2
      1 fixParticipant "Eve" false none "t2").2 =
      (DAOFactory.addParticipant c8wSt1 1 fixParticipant "Bob" true none "t1").2 := by
  have h := claim_C8_amended c8wSt1
    (DAOFactory.addParticipant c8wSt1 1 fixParticipant "Bob" true none "t1").2
    1 fixParticipant "Bob" true none "t1"
    (DAOFactory.addParticipant c8wSt1 1 fixParticipant "Bob" true none "t1").1
    rfl rfl "Eve" false none "t2"
  exact ⟨rfl, h.2.1⟩

/-- C7 counterexample: the preflight balance query sits outside the try
block, so a throwing balance query escapes `deploy` as an exception and
leaves the proposal exactly as it was — no FAILED status and no recorded
error string — contradicting the claim for the balance query. -/
theorem claim_C7_counterexample :
    (DAOFactory.deploy c7St 1 ioBalanceThrow "t2").outcome =
      .error "Failed to get balance: Internal Server Error" ∧
    (DAOFactory.deploy c7St 1 ioBalanceThrow "t2").state = c7St ∧
    (mapGet c7St.proposals 1).map (fun p => p.status) =
      some .THRESHOLD_MET ∧
    (mapGet c7St.proposals 1).map (fun p => p.deploymentError) = some none := by
  exact ⟨rfl, rfl, rfl, rfl⟩

/-- C7 amended: once deploy reaches the orchestrator, a failed deployment
is surfaced as a structured result (success false, the orchestrator result
with its partial transaction ids and addresses, and the error message),
the proposal moves to FAILED with the error string recorded; whenever the
main path leaves the proposal FAILED an error string is recorded; and when
the orchestrator succeeds the call resolves with a structured outcome (no
exception), the recorded addresses and transaction ids are preserved on
the proposal, and a distribution-phase throw leaves it FAILED with the
thrown message recorded and surfaced; but the preflight balance query sits
outside the try block, so a throwing balance query escapes `deploy` as an
exception and leaves the proposal record unchanged, with no FAILED status
and no recorded error. -/
theorem claim_C7_amended (st : FactoryState) (daoId : Nat)
    (io : DAOFactory.DeployIO) (now : String) (p : DAOProposal)
    (hm : mapGet st.proposals daoId = some p)
    (hnd : p.status ≠ .DEPLOYED)
    (hth : ¬ p.participants.length < p.config.minParticipants) :
    (∀ e, io.checkBalance = .error e →
      DAOFactory.deploy st daoId io now =
        { outcome := .error e, state := st,
          events := [.balanceQuery], statusWrites := [] }) ∧
    (∀ bal, io.checkBalance = .ok bal → bal.sufficient = true →
      (((ContractDeployer.deployDAO io.senderAddress io.deployDAOIO p.config).1.success = false →
        (DAOFactory.deploy st daoId io now).outcome =
          .ok { success := false,
                result := some (ContractDeployer.deployDAO io.senderAddress io.deployDAOIO p.config).1,
                message := "Deployment failed: " ++
                  ((ContractDeployer.deployDAO io.senderAddress io.deployDAOIO p.config).1.error.getD "undefined") } ∧
        (mapGet (DAOFactory.deploy st daoId io now).state.proposals daoId).map
          (fun q => q.status) = some .FAILED ∧
        (mapGet (DAOFactory.deploy st daoId io now).state.proposals daoId).map
          (fun q => q.deploymentError) =
          some (ContractDeployer.deployDAO io.senderAddress io.deployDAOIO p.config).1.error) ∧
      (∀ p1, mapGet (DAOFactory.deploy st daoId io now).state.proposals daoId = some p1 →
        p1.status = .FAILED → p1.deploymentError.isSome = true) ∧
      ((ContractDeployer.deployDAO io.senderAddress io.deployDAOIO p.config).1.success = true →
        ∃ o p1, (DAOFactory.deploy st daoId io now).outcome = .ok o ∧
          mapGet (DAOFactory.deploy st daoId io now).state.proposals daoId = some p1 ∧
          p1.tokenAddress =
            (ContractDeployer.deployDAO io.senderAddress io.deployDAOIO p.config).1.addresses.token ∧
          p1.treasuryAddress =
            (ContractDeployer.deployDAO io.senderAddress io.deployDAOIO p.config).1.addresses.treasury ∧
          p1.governanceAddress =
            (ContractDeployer.deployDAO io.senderAddress io.deployDAOIO p.config).1.addresses.governance ∧
          p1.deploymentTxIds =
            some (ContractDeployer.deployDAO io.senderAddress io.deployDAOIO p.config).1.txIds ∧
          (p1.status = .DEPLOYED ∨
            (p1.status = .FAILED ∧ o.success = false ∧ o.result = none ∧
              ∃ e, p1.deploymentError = some e ∧
                o.message = "Deployment error: " ++ e))))) := by
  constructor
  · intro e hcb
    simp only [DAOFactory.deploy, hm, hnd, if_false, hth, if_false, hcb]
  · intro bal hcb hsuf
    rw [deploy_main st daoId io now p bal hm hnd hth hcb
      (by rw [hsuf])]
    unfold DAOFactory.deployRest
    simp only [finalizedProposal_config]
    split
    · rename_i hfail
      refine ⟨?_, ?_, ?_⟩
      · intro _
        refine ⟨rfl, ?_, ?_⟩ <;> simp [mapGet_mapSet_self]
      · intro p1 hp1 _
        rw [mapGet_mapSet_self] at hp1
        injection hp1 with hp1
        subst hp1
        rcases deployDAO_success_or_error io.senderAddress io.deployDAOIO p.config with hs | he
        · rw [hs] at hfail
          cases hfail
        · simpa using he
      · intro hs
        rw [hfail] at hs
        cases hs
    · rename_i hnofail
      refine ⟨?_, ?_, ?_⟩
      · intro habs
        exact absurd habs (by simpa using hnofail)
      · intro p1 hp1 hfs
        split at hp1
        · rw [mapGet_mapSet_self] at hp1
          injection hp1 with hp1
          subst hp1
          cases hfs
        · rw [mapSet_mapSet, mapGet_mapSet_self] at hp1
          injection hp1 with hp1
          subst hp1
          rfl
      · intro _
        split
        · exact ⟨_, _, rfl, mapGet_mapSet_self _ _ _, rfl, rfl, rfl, rfl,
            Or.inl rfl⟩
        · rename_i e _
          refine ⟨_, _, rfl, mapGet_mapSet_self _ _ _, ?_, ?_, ?_, ?_, ?_⟩
          · rfl
          · rfl
          · rfl
          · rfl
          · exact Or.inr ⟨rfl, rfl, rfl, e, rfl, rfl⟩

/-- C7 amended witness: on the threshold-met fixture, a throwing balance
query escapes as an exception with the state unchanged; a failing token
broadcast after a successful balance check moves the proposal to FAILED;
and a throw during the distribution phase is surfaced as a structured
failure outcome with the proposal FAILED, the thrown message recorded, and
the deployed addresses and transaction ids preserved on the record. -/
theorem claim_C7_amended_witness :
    DAOFactory.deploy c7St 1 ioBalanceThrow "t2" =
      { outcome := .error "Failed to get balance: Internal Server Error",
        state := c7St, events := [.balanceQuery], statusWrites := [] } ∧
    (mapGet (DAOFactory.deploy c7St 1 ioTokenErr "t3").state.proposals 1).map
      (fun q => q.status) = some .FAILED ∧
    (DAOFactory.deploy c7St 1 ioDistErr "t4").outcome =
      .ok { success := false, result := none,
            message := "Deployment error: NotEnoughFunds" } ∧
    (mapGet (DAOFactory.deploy c7St 1 ioDistErr "t4").state.proposals 1).map
      (fun q => (q.status, q.deploymentError, q.deploymentTxIds,
        q.tokenAddress)) =
      some (.FAILED, some "NotEnoughFunds", some ["txid1", "txid2", "txid3"],
        some (fixSender ++ ".agt-token")) := by
  refine ⟨?_, ?_, ?_, ?_⟩
  · exact (claim_C7_amended c7St 1 ioBalanceThrow "t2"
      ((mapGet c7St.proposals 1).get (by decide)) (Option.some_get _).symm
      (by decide) (by decide)).1 "Failed to get balance: Internal Server Error" rfl
  · exact (((claim_C7_amended c7St 1 ioTokenErr "t3"
      ((mapGet c7St.proposals 1).get (by decide)) (Option.some_get _).symm
      (by decide) (by decide)).2 { stx := 2000000, sufficient := true }
      rfl rfl).1 rfl).2.1
  · have h := (((claim_C7_amended c7St 1 ioDistErr "t4"
      ((mapGet c7St.proposals 1).get (by decide)) (Option.some_get _).symm
      (by decide) (by decide)).2 { stx := 2000000, sufficient := true }
      rfl rfl).2.2) rfl
    exact rfl
  · exact rfl

/-- C1 counterexample: `deploy` only rejects DEPLOYED proposals, so a
second deploy call on a FAILED proposal re-enters the pipeline: it writes
DEPLOYING to the status field and, on success, leaves the proposal
DEPLOYED — the FAILED state is not terminal. -/
theorem claim_C1_counterexample :
    (mapGet c1St2.proposals 1).map (fun p => p.status) = some .FAILED ∧
    (DAOFactory.deploy c1St2 1 ioOk "t2").statusWrites =
      [.DEPLOYING, .DEPLOYED] ∧
    (mapGet (DAOFactory.deploy c1St2 1 ioOk "t2").state.proposals 1).map
      (fun p => p.status) = some .DEPLOYED := by
  exact ⟨rfl, rfl, rfl⟩

theorem deployRest_state_other (st2 : FactoryState) (daoId : Nat)
    (io : DAOFactory.DeployIO) (now : String) (q : DAOProposal)
    (id2 : Nat) (h : id2 ≠ daoId) :
    mapGet (DAOFactory.deployRest st2 daoId io now q).state.proposals id2 =
      mapGet st2.proposals id2 := by
  unfold DAOFactory.deployRest
  simp only []
  split
  · exact mapGet_mapSet_ne _ _ _ _ h
  · split
    · exact mapGet_mapSet_ne _ _ _ _ h
    · rw [mapSet_mapSet]
      exact mapGet_mapSet_ne _ _ _ _ h

/-- C1 amended: proposal statuses only move forward along
GATHERING, THRESHOLD_MET, DEPLOYING, DEPLOYED: `addParticipant` either
preserves the status or moves GATHERING to THRESHOLD_MET and never moves a
proposal back to GATHERING; `finalizeAllocations` preserves every status;
`createProposal` starts the new proposal at GATHERING and leaves existing
proposals untouched; a DEPLOYED proposal is terminal (`deploy` rejects it
unchanged); and `deploy` leaves every proposal's status unchanged or at
DEPLOYED or FAILED, and does not touch other proposals — but FAILED is not
terminal: a second deploy call on a FAILED proposal that passes the
threshold and balance checks re-enters the pipeline through DEPLOYING (the
counterexample exhibits this re-entry). -/
theorem claim_C1_amended :
    (∀ st daoId address n v r t id2 p p',
      mapGet st.proposals id2 = some p →
      mapGet (DAOFactory.addParticipant st daoId address n v r t).2.proposals
        id2 = some p' →
      p'.status = p.status ∨
        (p.status = .GATHERING ∧ p'.status = .THRESHOLD_MET)) ∧
    (∀ st daoId id2 p p',
      mapGet st.proposals id2 = some p →
      mapGet (DAOFactory.finalizeAllocations st daoId).2.proposals id2 =
        some p' →
      p'.status = p.status) ∧
    (∀ st a b c d e f cfg t,
      (DAOFactory.createProposal st a b c d e f cfg t).1.status =
        DAOStatus.GATHERING ∧
      ∀ id2 p p', id2 ≠ st.proposalCounter + 1 →
        mapGet st.proposals id2 = some p →
        mapGet (DAOFactory.createProposal st a b c d e f cfg t).2.proposals
          id2 = some p' →
        p' = p) ∧
    (∀ st daoId io now p,
      mapGet st.proposals daoId = some p → p.status = .DEPLOYED →
      DAOFactory.deploy st daoId io now =
        { outcome := .ok { success := false, result := none, message := "Already deployed" },
          state := st, events := [], statusWrites := [] }) ∧
    (∀ st daoId io now p p',
      mapGet st.proposals daoId = some p →
      mapGet (DAOFactory.deploy st daoId io now).state.proposals daoId =
        some p' →
      p'.status = p.status ∨ p'.status = .DEPLOYED ∨ p'.status = .FAILED) ∧
    (∀ st daoId io now id2, id2 ≠ daoId →
      mapGet (DAOFactory.deploy st daoId io now).state.proposals id2 =
        mapGet st.proposals id2) := by
  refine ⟨?_, ?_, ?_, ?_, ?_, ?_⟩
  · -- addParticipant
    intro st daoId address n v r t id2 p p' hp hp'
    rcases hm : mapGet st.proposals daoId with _ | proposal
    all_goals simp only [DAOFactory.addParticipant, hm] at hp'
    · rw [hp] at hp'
      injection hp' with hp'
      subst hp'
      exact Or.inl rfl
    · split at hp'
      · rw [hp] at hp'
        injection hp' with hp'
        subst hp'
        exact Or.inl rfl
      · split at hp'
        · rw [hp] at hp'
          injection hp' with hp'
          subst hp'
          exact Or.inl rfl
        · split at hp'
          · rw [hp] at hp'
            injection hp' with hp'
            subst hp'
            exact Or.inl rfl
          · split at hp'
            · rw [hp] at hp'
              injection hp' with hp'
              subst hp'
              exact Or.inl rfl
            · by_cases hid : id2 = daoId
              · subst hid
                rw [hm] at hp
                injection hp with hp
                subst hp
                rw [mapGet_mapSet_self] at hp'
                injection hp' with hp'
                split at hp'
                · rename_i hcond
                  subst hp'
                  exact Or.inr ⟨hcond.2, rfl⟩
                · subst hp'
                  exact Or.inl rfl
              · rw [mapGet_mapSet_ne _ _ _ _ hid, hp] at hp'
                injection hp' with hp'
                subst hp'
                exact Or.inl rfl
  · -- finalizeAllocations
    intro st daoId id2 p p' hp hp'
    rcases hm : mapGet st.proposals daoId with _ | proposal
    · simp only [DAOFactory.finalizeAllocations, hm] at hp'
      rw [hp] at hp'
      injection hp' with hp'
      subst hp'
      rfl
    · rw [finalizeAllocations_state st daoId proposal hm] at hp'
      by_cases hid : id2 = daoId
      · subst hid
        rw [hm] at hp
        injection hp with hp
        subst hp
        rw [mapGet_mapSet_self] at hp'
        injection hp' with hp'
        subst hp'
        exact finalizedProposal_status _
      · rw [mapGet_mapSet_ne _ _ _ _ hid, hp] at hp'
        injection hp' with hp'
        subst hp'
        rfl
  · -- createProposal
    intro st a b c d e f cfg t
    refine ⟨rfl, ?_⟩
    intro id2 p p' hne hp hp'
    simp only [DAOFactory.createProposal] at hp'
    rw [mapGet_mapSet_ne _ _ _ _ hne, hp] at hp'
    injection hp' with hp'
    exact hp'.symm
  · -- deploy rejects DEPLOYED untouched
    intro st daoId io now p hm hd
    simp only [DAOFactory.deploy, hm, hd, if_true]
  · -- deploy moves the target only forward to DEPLOYED or FAILED
    intro st daoId io now p p' hm hp'
    simp only [DAOFactory.deploy, hm] at hp'
    split at hp'
    · rw [hm] at hp'
      injection hp' with hp'
      subst hp'
      exact Or.inl rfl
    · split at hp'
      · rw [hm] at hp'
        injection hp' with hp'
        subst hp'
        exact Or.inl rfl
      · split at hp'
        · rw [hm] at hp'
          injection hp' with hp'
          subst hp'
          exact Or.inl rfl
        · split at hp'
          · rw [hm] at hp'
            injection hp' with hp'
            subst hp'
            exact Or.inl rfl
          · exact Or.inr (deployRest_status _ daoId io now _ p' hp')
  · -- deploy leaves other proposals untouched
    intro st daoId io now id2 hid
    rcases hm : mapGet st.proposals daoId with _ | proposal
    all_goals simp only [DAOFactory.deploy, hm]
    · split
      · rfl
      · split
        · rfl
        · split
          · rfl
          · split
            · rfl
            · rw [deployRest_state_other _ daoId io now _ id2 hid]
              rw [finalizeAllocations_state st daoId proposal hm]
              simp only [mapGet_mapSet_self, Option.getD_some, mapSet_mapSet]
              exact mapGet_mapSet_ne _ _ _ _ hid

/-- C1 amended witness: after the re-deployed fixture proposal reaches
DEPLOYED, a further deploy call is rejected with the already-deployed
message and changes nothing. -/
theorem claim_C1_amended_witness :
    DAOFactory.deploy (DAOFactory.deploy c1St2 1 ioOk "t2").state 1 ioOk "t3" =
      { outcome := .ok { success := false, result := none, message := "Already deployed" },
        state := (DAOFactory.deploy c1St2 1 ioOk "t2").state,
        events := [], statusWrites := [] } := by
  exact claim_C1_amended.2.2.2.1 _ 1 ioOk "t3"
    ((mapGet (DAOFactory.deploy c1St2 1 ioOk "t2").state.proposals 1).get
      (by decide))
    (Option.some_get _).symm (by decide)
